import Mathlib

/-!
Verification of the tool-dispatch and response-shaping layer of the
hubspot-crm-mcp server (src/api/mcp.ts) against its specification.

The embedding models JavaScript/JSON values as the inductive type `Json`
(numbers restricted to integers, which covers every numeric value the
claims exercise), JavaScript objects as ordered association lists
(`JsObj`), and the effectful handler code as computations in the monad
`M`: a reader of the environment `Env` (the credential, a deterministic
oracle standing for the remote HubSpot system, and the wall clock) that
threads the trace of issued HTTP calls and may fail with a message, just
as a rejected promise does.
-/

/-- A JSON value.  JavaScript numbers are modelled as integers; none of
the program paths under verification manipulate non-integral numbers. -/
inductive Json where
  | null : Json
  | bool (b : Bool) : Json
  | num (n : Int) : Json
  | str (s : String) : Json
  | arr (xs : List Json) : Json
  | obj (fields : List (String × Json)) : Json

/-- A JavaScript object: an ordered list of key/value pairs.  Absence of
a key models the JS value `undefined` (which `JSON.stringify` drops). -/
abbrev JsObj := List (String × Json)

/-- First-occurrence key lookup on an object's field list (JS property
access on own properties; JS objects cannot carry duplicate keys). -/
def lookupL : JsObj → String → Option Json
  | [], _ => none
  | (k, v) :: rest, key => if k = key then some v else lookupL rest key

/-- JS property access `j.k`: `undefined` on every non-object. -/
def getF : Json → String → Option Json
  | .obj fs, k => lookupL fs k
  | _, _ => none

/-- Argument-bag access `args.k`. -/
def getA (args : JsObj) (k : String) : Option Json := lookupL args k

/-- JS truthiness of a value. -/
def truthy : Json → Bool
  | .null => false
  | .bool b => b
  | .num n => !(n == 0)
  | .str s => !(s == "")
  | .arr _ => true
  | .obj _ => true

/-- Truthiness of a possibly-`undefined` value (`undefined` is falsy). -/
def truthyO : Option Json → Bool
  | none => false
  | some v => truthy v

/-- `a || d` for a possibly-`undefined` JS value. -/
def jsOrJ (a : Option Json) (d : Json) : Json :=
  match a with
  | none => d
  | some v => if truthy v then v else d

mutual
/-- JS `String(v)` conversion.  Arrays stringify as their elements
joined with commas; objects as "[object Object]". -/
def jsString : Json → String
  | .null => "null"
  | .bool b => cond b "true" "false"
  | .num n => toString n
  | .str s => s
  | .arr xs => jsStringList xs
  | .obj _ => "[object Object]"
termination_by structural j => j

/-- Elements of an array joined with "," (JS `Array.prototype.toString`;
`null` elements stringify as the empty string inside a join). -/
def jsStringList : List Json → String
  | [] => ""
  | [.null] => ""
  | [x] => jsString x
  | .null :: xs => "," ++ jsStringList xs
  | x :: xs => jsString x ++ "," ++ jsStringList xs
termination_by structural l => l
end

/-- `String(x)` where `x` may be `undefined` (template-literal
interpolation of a missing argument yields "undefined"). -/
def jsStringU : Option Json → String
  | none => "undefined"
  | some v => jsString v

/-- Case-folding, modelling `String.prototype.toLowerCase`. -/
def toLower (s : String) : String := ⟨s.data.map Char.toLower⟩

/-- `pat` is a leading segment of `l`. -/
def charsStartsWith : List Char → List Char → Bool
  | [], _ => true
  | _ :: _, [] => false
  | p :: ps, c :: cs => p == c && charsStartsWith ps cs

/-- `pat` occurs contiguously somewhere in `l` (JS `indexOf !== -1`). -/
def charsContains (l pat : List Char) : Bool :=
  match l with
  | [] => pat.isEmpty
  | _ :: rest => charsStartsWith pat l || charsContains rest pat

/-- JS `s.includes(pat)`. -/
def strContains (s pat : String) : Bool := charsContains s.data pat.data

/-- A key/value field present only when the value is not `undefined`
(`JSON.stringify` drops keys whose value is `undefined`). -/
def optF (k : String) (v : Option Json) : JsObj :=
  match v with
  | some j => [(k, j)]
  | none => []

/-- `Object.entries` for the values reaching `truncateProperties`:
field list of an object, index/value pairs of an array. -/
def entriesOf : Json → JsObj
  | .obj fs => fs
  | .arr xs => xs.enum.map (fun p => (toString p.1, p.2))
  | _ => []

/-! ## Result Compactor (src/api/mcp.ts lines 48-96) -/

/-- The truncation marker appended to shortened strings. -/
def truncMarker : String := "...[truncated]"

/-- The effective `maxLength` value inside `truncateProperties`: either
a finite JS number or `Infinity` (produced by the handlers' sentinel
mapping for a caller-supplied 0). -/
inductive MaxLen where
  | fin (n : Int) : MaxLen
  | inf : MaxLen

/-- `String.prototype.substring(0, n)` for a natural bound. -/
def strTake (s : String) (n : Nat) : String := ⟨s.data.take n⟩

/-- One property value under truncation: a string strictly longer than
the bound becomes its prefix of that length plus the marker (a negative
bound empties the string, as `substring(0, n)` clamps); every
comparison with `Infinity` is false, so `inf` never truncates. -/
def truncateValue : Json → MaxLen → Json
  | .str s, .fin n => if n < (s.length : Int)
      then .str (strTake s n.toNat ++ truncMarker)
      else .str s
  | v, _ => v

/-- `truncateProperties(obj, maxLength)`: rebuilds the property bag with
every value truncated, keys and order unchanged. -/
def truncateProperties (props : JsObj) (m : MaxLen) : JsObj :=
  props.map (fun kv => (kv.1, truncateValue kv.2 m))

/-- The `properties` member of a compacted object: present when the
source value is truthy and of `typeof "object"` (object or array; a
truthy anything else is skipped), its entries truncated. -/
def propertiesField (item : Json) (m : MaxLen) : JsObj :=
  match getF item "properties" with
  | some p =>
    if truthy p && (match p with | .obj _ => true | .arr _ => true | _ => false)
    then [("properties", .obj (truncateProperties (entriesOf p) m))]
    else []
  | none => []

/-- A metadata field copied under a JS-truthiness guard
(`if (item.k) result.k = item.k`). -/
def truthyMetaField (item : Json) (k : String) : JsObj :=
  match getF item k with
  | some v => if truthy v then [(k, v)] else []
  | none => []

/-- A metadata field copied under an `!== undefined` guard
(`if (item.archived !== undefined) ...`). -/
def plainMetaField (item : Json) (k : String) : JsObj :=
  match getF item k with
  | some v => [(k, v)]
  | none => []

/-- The metadata block of a compacted object: present only under
`includeMetadata`; `createdAt`/`updatedAt`/`url` are guarded by JS
truthiness, `archived` only by definedness. -/
def metadataFields (item : Json) (includeMetadata : Bool) : JsObj :=
  if includeMetadata then
    truthyMetaField item "createdAt" ++ truthyMetaField item "updatedAt"
    ++ plainMetaField item "archived" ++ truthyMetaField item "url"
  else []

/-- `compactResult(item, {maxPropertyLength, includeMetadata})`: `id`
always (the key drops at serialization when the source had none), then
the truncated `properties`, then the metadata block. -/
def compactResult (item : Json) (m : MaxLen) (includeMetadata : Bool) : JsObj :=
  optF "id" (getF item "id") ++ propertiesField item m
    ++ metadataFields item includeMetadata

/-- `compactResults`: the call sites pass `{...data, results: rs}`, so
the page is modelled by its three components; `total` and `paging` pass
through (dropped when `undefined`), every element is compacted. -/
def compactResults (total : Option Json) (results : List Json)
    (paging : Option Json) (m : MaxLen) (includeMetadata : Bool) : Json :=
  .obj (optF "total" total
    ++ [("results", .arr (results.map (fun i => .obj (compactResult i m includeMetadata))))]
    ++ optF "paging" paging)

/-! ## Client-Side Filter (src/api/mcp.ts lines 12-46) -/

/-- `String(props.k || '').toLowerCase()`: a missing or falsy property
coerces to the empty string before case-folding. -/
def coercedProp (p : Json) (k : String) : String :=
  match getF p k with
  | none => ""
  | some v => if truthy v then toLower (jsString v) else ""

/-- The per-item exclusion test inside `filterResults` (negation of the
filter callback): company checked first, then job title; an item with a
missing or falsy `properties` bag never matches. -/
def matchesExclusion (item : Json) (companiesLower titlesLower : List String) : Bool :=
  match getF item "properties" with
  | none => false
  | some p =>
    if !truthy p then false
    else
      let company := coercedProp p "company"
      if !(company == "") && companiesLower.any (fun exc => strContains company exc) then
        true
      else
        let jobtitle := coercedProp p "jobtitle"
        if !(jobtitle == "") && titlesLower.any (fun exc => strContains jobtitle exc) then
          true
        else false

/-- `filterResults(results, {excludeCompanies, excludeJobTitles})`:
fast path when both exclusion lists are empty, otherwise keep exactly
the non-matching items and report the count of dropped ones. -/
def filterResults (results : List Json)
    (excludeCompanies excludeJobTitles : List String) : List Json × Nat :=
  if excludeCompanies.isEmpty && excludeJobTitles.isEmpty then
    (results, 0)
  else
    let csLower := excludeCompanies.map toLower
    let tsLower := excludeJobTitles.map toLower
    let filtered := results.filter (fun item => !matchesExclusion item csLower tsLower)
    (filtered, results.length - filtered.length)

/-! ## Remote Object Client (src/api/mcp.ts lines 98-118) -/

/-- One HTTP call issued to the remote system: path (with query
string), HTTP method, optional JSON body. -/
structure HubCall where
  path : String
  httpMethod : String
  body : Option Json

/-- The remote system's reply: decoded JSON on a 2xx status, otherwise
the non-success status code and raw response text. -/
inductive HubResp where
  | ok (j : Json) : HubResp
  | err (status : Nat) (body : String) : HubResp

/-- The process environment: the bearer credential (absent when the
`HUBSPOT_ACCESS_TOKEN` variable is unset), a deterministic oracle
standing for the remote HubSpot system, and the two wall-clock values
the handlers read (`new Date().toISOString()` and the same one day
later, used as the default task due date). -/
structure Env where
  token : Option String
  respond : HubCall → HubResp
  nowIso : String
  tomorrowIso : String

/-- The handler monad: reads the environment, threads the ordered trace
of issued remote calls, and may fail with an error message (a rejected
promise).  A failing computation keeps the trace of the calls issued
before the failure. -/
def M (α : Type) : Type := Env → List HubCall → Except String α × List HubCall

/-- Return. -/
def pureM {α : Type} (a : α) : M α := fun _ tr => (.ok a, tr)

/-- Sequencing (`await` the first computation, then continue). -/
def bindM {α β : Type} (x : M α) (f : α → M β) : M β := fun env tr =>
  match x env tr with
  | (.ok a, tr2) => f a env tr2
  | (.error e, tr2) => (.error e, tr2)

/-- `throw new Error(msg)`. -/
def throwM {α : Type} (msg : String) : M α := fun _ tr => (.error msg, tr)

/-- `try { x } catch { fallback }`. -/
def catchM {α : Type} (x : M α) (fallback : α) : M α := fun env tr =>
  match x env tr with
  | (.ok a, tr2) => (.ok a, tr2)
  | (.error _, tr2) => (.ok fallback, tr2)

/-- `new Date().toISOString()`. -/
def nowM : M String := fun env tr => (.ok env.nowIso, tr)

/-- `new Date(Date.now() + 24*60*60*1000).toISOString()`. -/
def tomorrowM : M String := fun env tr => (.ok env.tomorrowIso, tr)

/-- The `hubspot(path, method, body)` helper: fails before any network
call when the credential is missing; on a non-2xx reply fails with
"HubSpot API {status}: {body}"; a successful DELETE yields
`{success:true}` instead of a decoded body. -/
def hubspot (path : String) (httpMethod : String) (body : Option Json) : M Json :=
  fun env tr =>
    match env.token with
    | none => (.error "HUBSPOT_ACCESS_TOKEN not configured", tr)
    | some _ =>
      let call : HubCall := ⟨path, httpMethod, body⟩
      match env.respond call with
      | .err status text =>
        (.error ("HubSpot API " ++ toString status ++ ": " ++ text), tr ++ [call])
      | .ok j =>
        (.ok (if httpMethod == "DELETE" then Json.obj [("success", .bool true)] else j),
         tr ++ [call])

/-! ## Argument coercion helpers used by the Tool Dispatcher -/

/-- A numeric argument.  `Number(x)` of a missing or non-numeric value
is NaN, which the `|| default` idiom then replaces; the claims only
exercise numeric arguments, so non-numeric coercion (e.g. of numeric
strings) collapses to the default here. -/
def numArg : Option Json → Option Int
  | some (.num n) => some n
  | _ => none

/-- `Number(x) || d`: NaN (missing) and 0 both fall back to `d`. -/
def jsOrNum (a : Option Int) (d : Int) : Int :=
  match a with
  | none => d
  | some n => if n = 0 then d else n

/-- The effective `limit` of the contact/company/deal/task list and
search handlers and of the engagement fetch:
`Math.min(Number(args.limit) || 20, 100)`. -/
def effLimit (a : Option Json) : Int := min (jsOrNum (numArg a) 20) 100

/-- The owners-list limit: `Math.min(Number(args.limit) || 100, 500)`. -/
def effLimitOwners (a : Option Json) : Int := min (jsOrNum (numArg a) 100) 500

/-- The dispatcher's `maxPropertyLength` mapping:
`args.maxPropertyLength === 0 ? Infinity :
 (Number(args.maxPropertyLength) || DEFAULT_MAX_PROPERTY_LENGTH)`. -/
def maxLenOfArg (a : Option Json) : MaxLen :=
  match a with
  | some (.num 0) => .inf
  | other => .fin (jsOrNum (numArg other) 500)

/-- `Array.isArray(x) ? x as string[] : []`, each element then used as
a string (non-string elements would raise in JS and are out of the
modelled domain; they are coerced here). -/
def strListArg : Option Json → List String
  | some (.arr xs) => xs.map jsString
  | _ => []

/-- The array elements of a value, `[]` when it is not an array. -/
def arrElems : Option Json → List Json
  | some (.arr xs) => xs
  | _ => []

/-- `data.results` as a list of objects.  The remote contract makes it
an array; a non-array value would raise a TypeError downstream in JS
and is outside the modelled domain. -/
def resultsOf (data : Json) : List Json := arrElems (getF data "results")

/-- Field list of the result of a spread `{...j, ...}`. -/
def fieldsOf : Json → JsObj
  | .obj fs => fs
  | _ => []

/-- Render a `URLSearchParams` query string.  The values the handlers
put there (decimal numbers, ids, cursors, property names) need no
percent-escaping, which is therefore not modelled. -/
def renderQS : List (String × String) → String
  | [] => ""
  | [(k, v)] => k ++ "=" ++ v
  | (k, v) :: rest => k ++ "=" ++ v ++ "&" ++ renderQS rest

/-- `if (Array.isArray(args.properties)) args.properties.forEach(p =>
params.append('properties', String(p)))`. -/
def propsParams (a : Option Json) : List (String × String) :=
  (arrElems a).map (fun p => ("properties", jsString p))

/-! ## Search request bodies (src/api/mcp.ts lines 713-719, 766-771,
926-949, 1048-1078) -/

/-- A body member present only when the argument is an array
(`if (Array.isArray(x)) body.k = x`), carried verbatim. -/
def arrSeg (a : Option Json) (k : String) : JsObj :=
  match a with
  | some (.arr xs) => [(k, Json.arr xs)]
  | _ => []

/-- `Array.isArray(x) ? x : d` (the deal search's properties
fallback). -/
def arrOrDefault (a : Option Json) (d : Json) : Json :=
  match a with
  | some (.arr xs) => .arr xs
  | _ => d

/-- The body of the contact-search request: `limit` always, then
`query`, `filterGroups`, `properties`, `sorts` only when the caller
supplied them (truthiness for the first two, `Array.isArray` for the
last two). -/
def searchContactsBody (args : JsObj) : Json :=
  .obj ([("limit", .num (effLimit (getA args "limit")))]
    ++ (if truthyO (getA args "query") then optF "query" (getA args "query") else [])
    ++ (if truthyO (getA args "filterGroups") then
          optF "filterGroups" (getA args "filterGroups") else [])
    ++ arrSeg (getA args "properties") "properties"
    ++ arrSeg (getA args "sorts") "sorts")

/-- The company-search body is built by the same code shape. -/
def searchCompaniesBody (args : JsObj) : Json := searchContactsBody args

/-- One `{propertyName, operator, value}` filter object. -/
def filterObj (p o v : String) : Json :=
  .obj [("propertyName", .str p), ("operator", .str o), ("value", .str v)]

/-- The convenience filters of `hubspot_search_tasks`, in push order:
owner, status, due-before (LT), due-after (GT); each present only when
its argument is truthy. -/
def tasksFilters (args : JsObj) : List Json :=
  (if truthyO (getA args "ownerId") then
     [filterObj "hubspot_owner_id" "EQ" (jsStringU (getA args "ownerId"))] else [])
  ++ (if truthyO (getA args "status") then
        [filterObj "hs_task_status" "EQ" (jsStringU (getA args "status"))] else [])
  ++ (if truthyO (getA args "dueBefore") then
        [filterObj "hs_timestamp" "LT" (jsStringU (getA args "dueBefore"))] else [])
  ++ (if truthyO (getA args "dueAfter") then
        [filterObj "hs_timestamp" "GT" (jsStringU (getA args "dueAfter"))] else [])

/-- The fixed property projection of the task search. -/
def taskSearchProps : List String :=
  ["hs_task_subject", "hs_task_body", "hs_task_status", "hs_timestamp",
   "hubspot_owner_id", "hs_task_priority"]

/-- The task-search body: `limit`, a hardcoded `properties` projection
and a hardcoded due-date-ascending `sorts`, plus one synthesized filter
group when at least one convenience filter was supplied. -/
def searchTasksBody (args : JsObj) : Json :=
  .obj ([("limit", .num (effLimit (getA args "limit"))),
         ("properties", .arr (taskSearchProps.map .str)),
         ("sorts", .arr [.obj [("propertyName", .str "hs_timestamp"),
                               ("direction", .str "ASCENDING")]])]
    ++ (if (tasksFilters args).isEmpty then []
        else [("filterGroups", .arr [.obj [("filters", .arr (tasksFilters args))]])]))

/-- The convenience filters of `hubspot_search_deals`, in push order:
owner, stage, pipeline, close-after (GTE), close-before (LTE),
minimum amount (GTE). -/
def dealsFilters (args : JsObj) : List Json :=
  (if truthyO (getA args "ownerId") then
     [filterObj "hubspot_owner_id" "EQ" (jsStringU (getA args "ownerId"))] else [])
  ++ (if truthyO (getA args "dealstage") then
        [filterObj "dealstage" "EQ" (jsStringU (getA args "dealstage"))] else [])
  ++ (if truthyO (getA args "pipeline") then
        [filterObj "pipeline" "EQ" (jsStringU (getA args "pipeline"))] else [])
  ++ (if truthyO (getA args "closeAfter") then
        [filterObj "closedate" "GTE" (jsStringU (getA args "closeAfter"))] else [])
  ++ (if truthyO (getA args "closeBefore") then
        [filterObj "closedate" "LTE" (jsStringU (getA args "closeBefore"))] else [])
  ++ (if truthyO (getA args "minAmount") then
        [filterObj "amount" "GTE" (jsStringU (getA args "minAmount"))] else [])

/-- The fallback property projection of the deal search. -/
def dealSearchProps : List String :=
  ["dealname", "amount", "closedate", "dealstage", "pipeline", "hubspot_owner_id"]

/-- The deal-search body: `limit`, caller `properties` when supplied as
an array (a fixed fallback otherwise), a hardcoded close-date-ascending
`sorts`, the free-text `query` when truthy, and one synthesized filter
group when at least one convenience filter was supplied. -/
def searchDealsBody (args : JsObj) : Json :=
  .obj ([("limit", .num (effLimit (getA args "limit"))),
         ("properties", arrOrDefault (getA args "properties")
           (.arr (dealSearchProps.map .str))),
         ("sorts", .arr [.obj [("propertyName", .str "closedate"),
                               ("direction", .str "ASCENDING")]])]
    ++ (if truthyO (getA args "query") then optF "query" (getA args "query") else [])
    ++ (if (dealsFilters args).isEmpty then []
        else [("filterGroups", .arr [.obj [("filters", .arr (dealsFilters args))]])]))

/-! ## Tool handlers (the cases of `handleTool`'s switch,
src/api/mcp.ts lines 669-1108) -/

/-- The post-fetch shaping shared verbatim by the two contact handlers:
client-side exclusion filter, then compaction, then an `_meta` block
only when something was excluded. -/
def contactsPostProcess (args : JsObj) (data : Json) : Json :=
  let excludeCompanies := strListArg (getA args "excludeCompanies")
  let excludeJobTitles := strListArg (getA args "excludeJobTitles")
  let fr := filterResults (resultsOf data) excludeCompanies excludeJobTitles
  let maxLen := maxLenOfArg (getA args "maxPropertyLength")
  let compacted := compactResults (getF data "total") fr.1 (getF data "paging")
    maxLen (truthyO (getA args "includeMetadata"))
  .obj (fieldsOf compacted
    ++ (if fr.2 > 0 then
          [("_meta", .obj [("excluded", .num (fr.2 : Int)),
                           ("excludeCompanies", .arr (excludeCompanies.map .str)),
                           ("excludeJobTitles", .arr (excludeJobTitles.map .str))])]
        else []))

/-- `hubspot_list_contacts`. -/
def listContactsHandler (args : JsObj) : M Json :=
  let qs := [("limit", toString (effLimit (getA args "limit")))]
    ++ (if truthyO (getA args "after") then [("after", jsStringU (getA args "after"))] else [])
    ++ propsParams (getA args "properties")
  bindM (hubspot ("/crm/v3/objects/contacts?" ++ renderQS qs) "GET" none) (fun data =>
    pureM (contactsPostProcess args data))

/-- `hubspot_get_contact`. -/
def getContactHandler (args : JsObj) : M Json :=
  hubspot ("/crm/v3/objects/contacts/" ++ jsStringU (getA args "id") ++ "?"
    ++ renderQS (propsParams (getA args "properties"))) "GET" none

/-- `hubspot_create_contact`. -/
def createContactHandler (args : JsObj) : M Json :=
  hubspot "/crm/v3/objects/contacts" "POST"
    (some (.obj (optF "properties" (getA args "properties"))))

/-- `hubspot_update_contact`. -/
def updateContactHandler (args : JsObj) : M Json :=
  hubspot ("/crm/v3/objects/contacts/" ++ jsStringU (getA args "id")) "PATCH"
    (some (.obj (optF "properties" (getA args "properties"))))

/-- `hubspot_delete_contact`: a single DELETE whose result (the
`{success:true}` of the client helper) is returned as-is. -/
def deleteContactHandler (args : JsObj) : M Json :=
  hubspot ("/crm/v3/objects/contacts/" ++ jsStringU (getA args "id")) "DELETE" none

/-- `hubspot_search_contacts`. -/
def searchContactsHandler (args : JsObj) : M Json :=
  bindM (hubspot "/crm/v3/objects/contacts/search" "POST" (some (searchContactsBody args)))
    (fun data => pureM (contactsPostProcess args data))

/-- `hubspot_list_companies`. -/
def listCompaniesHandler (args : JsObj) : M Json :=
  let qs := [("limit", toString (effLimit (getA args "limit")))]
    ++ (if truthyO (getA args "after") then [("after", jsStringU (getA args "after"))] else [])
    ++ propsParams (getA args "properties")
  bindM (hubspot ("/crm/v3/objects/companies?" ++ renderQS qs) "GET" none) (fun data =>
    pureM (compactResults (getF data "total") (resultsOf data) (getF data "paging")
      (maxLenOfArg (getA args "maxPropertyLength")) (truthyO (getA args "includeMetadata"))))

/-- `hubspot_get_company`. -/
def getCompanyHandler (args : JsObj) : M Json :=
  hubspot ("/crm/v3/objects/companies/" ++ jsStringU (getA args "id") ++ "?"
    ++ renderQS (propsParams (getA args "properties"))) "GET" none

/-- `hubspot_create_company`. -/
def createCompanyHandler (args : JsObj) : M Json :=
  hubspot "/crm/v3/objects/companies" "POST"
    (some (.obj (optF "properties" (getA args "properties"))))

/-- `hubspot_update_company`. -/
def updateCompanyHandler (args : JsObj) : M Json :=
  hubspot ("/crm/v3/objects/companies/" ++ jsStringU (getA args "id")) "PATCH"
    (some (.obj (optF "properties" (getA args "properties"))))

/-- `hubspot_delete_company`. -/
def deleteCompanyHandler (args : JsObj) : M Json :=
  hubspot ("/crm/v3/objects/companies/" ++ jsStringU (getA args "id")) "DELETE" none

/-- `hubspot_search_companies`. -/
def searchCompaniesHandler (args : JsObj) : M Json :=
  bindM (hubspot "/crm/v3/objects/companies/search" "POST" (some (searchCompaniesBody args)))
    (fun data =>
      pureM (compactResults (getF data "total") (resultsOf data) (getF data "paging")
        (maxLenOfArg (getA args "maxPropertyLength")) (truthyO (getA args "includeMetadata"))))

/-- The `{name, label, type, description}` projection of a property
schema entry (keys with `undefined` values drop at serialization). -/
def propertySchemaEntry (p : Json) : Json :=
  .obj (optF "name" (getF p "name") ++ optF "label" (getF p "label")
    ++ optF "type" (getF p "type") ++ optF "description" (getF p "description"))

/-- `hubspot_contact_properties`. -/
def contactPropertiesHandler (_args : JsObj) : M Json :=
  bindM (hubspot "/crm/v3/properties/contacts" "GET" none) (fun data =>
    pureM (.arr ((resultsOf data).map propertySchemaEntry)))

/-- `hubspot_company_properties`. -/
def companyPropertiesHandler (_args : JsObj) : M Json :=
  bindM (hubspot "/crm/v3/properties/companies" "GET" none) (fun data =>
    pureM (.arr ((resultsOf data).map propertySchemaEntry)))

/-- `hubspot_list_owners`. -/
def listOwnersHandler (args : JsObj) : M Json :=
  let qs := [("limit", toString (effLimitOwners (getA args "limit")))]
    ++ (if truthyO (getA args "after") then [("after", jsStringU (getA args "after"))] else [])
    ++ (if truthyO (getA args "archived") then [("archived", "true")] else [])
  hubspot ("/crm/v3/owners?" ++ renderQS qs) "GET" none

/-- `hubspot_get_owner`. -/
def getOwnerHandler (args : JsObj) : M Json :=
  hubspot ("/crm/v3/owners/" ++ jsStringU (getA args "ownerId")) "GET" none

/-- The five known engagement types, in the source's order. -/
def allEngagementTypes : List String := ["notes", "emails", "calls", "meetings", "tasks"]

/-- The fixed per-type property subset requested by the batch read. -/
def engProps (t : String) : List String :=
  if t == "notes" then ["hs_note_body", "hs_timestamp", "hs_createdate"]
  else if t == "emails" then
    ["hs_email_subject", "hs_email_text", "hs_email_direction", "hs_timestamp", "hs_createdate"]
  else if t == "calls" then
    ["hs_call_title", "hs_call_body", "hs_call_duration", "hs_call_direction",
     "hs_timestamp", "hs_createdate"]
  else if t == "meetings" then
    ["hs_meeting_title", "hs_meeting_body", "hs_meeting_start_time", "hs_meeting_end_time",
     "hs_createdate"]
  else ["hs_task_subject", "hs_task_body", "hs_task_status", "hs_timestamp", "hs_createdate"]

/-- `Array.prototype.slice(0, n)` (a negative bound drops from the
end). -/
def jsSlice0 (n : Int) (l : List Json) : List Json :=
  if 0 ≤ n then l.take n.toNat else l.take (l.length - (-n).toNat)

/-- The association-lookup call issued for one engagement type. -/
def assocCall (contactId t : String) : HubCall :=
  ⟨"/crm/v4/objects/contacts/" ++ contactId ++ "/associations/" ++ t, "GET", none⟩

/-- The body of the per-type batch read. -/
def batchReadBody (t : String) (ids : List (Option Json)) : Json :=
  .obj [("inputs", .arr (ids.map (fun i => .obj (optF "id" i)))),
        ("properties", .arr ((engProps t).map .str))]

/-- The per-type fetch task of `hubspot_get_engagements`: association
lookup, then batch read of at most `limit` associated objects; the
whole task sits inside a `try`/`catch` that degrades any failure to an
empty list.  (The TypeError branch models the JS crash of `.map` when
the batch reply carries no `results` array; it is caught like every
other failure.) -/
def fetchEngagementType (contactId : String) (limit : Int) (t : String) : M (List Json) :=
  catchM
    (bindM (hubspot ("/crm/v4/objects/contacts/" ++ contactId ++ "/associations/" ++ t)
        "GET" none) (fun assoc =>
      match getF assoc "results" with
      | some (.arr (r :: rs)) =>
        let objectIds := (jsSlice0 limit (r :: rs)).map (fun a => getF a "toObjectId")
        bindM (hubspot ("/crm/v3/objects/" ++ t ++ "/batch/read") "POST"
            (some (batchReadBody t objectIds))) (fun batch =>
          match getF batch "results" with
          | some (.arr es) =>
            pureM (es.map (fun e =>
              .obj (optF "id" (getF e "id") ++ optF "properties" (getF e "properties"))))
          | _ => throwM "TypeError: batchResponse.results.map is not a function")
      | _ => pureM []))
    []

/-- The engagement fan-out, joined in type order.  The source runs the
per-type tasks under `Promise.all`; they touch disjoint keys of the
accumulator and the remote oracle is deterministic, so every
interleaving computes these values, and the trace records one
linearization (type order). -/
def fetchAllEngagements (contactId : String) (limit : Int) :
    List String → M (List (String × Json))
  | [] => pureM []
  | t :: ts =>
    bindM (fetchEngagementType contactId limit t) (fun l =>
      bindM (fetchAllEngagements contactId limit ts) (fun rest =>
        pureM ((t, Json.arr l) :: rest)))

/-- `hubspot_get_engagements`. -/
def getEngagementsHandler (args : JsObj) : M Json :=
  let contactId := jsStringU (getA args "contactId")
  let limit := effLimit (getA args "limit")
  let typesToFetch :=
    match getA args "types" with
    | some (.arr xs) => xs.filterMap (fun j =>
        match j with
        | .str s => if allEngagementTypes.contains s then some s else none
        | _ => none)
    | _ => allEngagementTypes
  bindM (fetchAllEngagements contactId limit typesToFetch) (fun engs =>
    pureM (.obj [("contactId", .str contactId),
                 ("engagements", .obj engs),
                 ("_meta", .obj [("typesRequested", .arr (typesToFetch.map .str))])]))

/-- `hubspot_log_email`: create the email object, then associate it
with the contact; the association is awaited before returning. -/
def logEmailHandler (args : JsObj) : M Json :=
  let contactId := jsStringU (getA args "contactId")
  bindM (if truthyO (getA args "timestamp")
         then pureM (jsStringU (getA args "timestamp")) else nowM) (fun timestamp =>
    bindM (hubspot "/crm/v3/objects/emails" "POST" (some (.obj [("properties", .obj
        [("hs_email_subject", .str (jsStringU (getA args "subject"))),
         ("hs_email_text", .str (jsStringU (getA args "body"))),
         ("hs_email_direction", .str (jsString (jsOrJ (getA args "direction") (.str "EMAIL")))),
         ("hs_timestamp", .str timestamp)])]))) (fun emailData =>
      bindM (hubspot ("/crm/v3/objects/emails/" ++ jsStringU (getF emailData "id")
          ++ "/associations/contacts/" ++ contactId ++ "/email_to_contact") "PUT" none)
        (fun _ =>
          pureM (.obj ([("success", .bool true)]
            ++ optF "emailId" (getF emailData "id")
            ++ [("contactId", .str contactId)]
            ++ optF "properties" (getF emailData "properties"))))))

/-- `hubspot_create_note`: create the note, then associate it. -/
def createNoteHandler (args : JsObj) : M Json :=
  let contactId := jsStringU (getA args "contactId")
  bindM (if truthyO (getA args "timestamp")
         then pureM (jsStringU (getA args "timestamp")) else nowM) (fun timestamp =>
    bindM (hubspot "/crm/v3/objects/notes" "POST" (some (.obj [("properties", .obj
        [("hs_note_body", .str (jsStringU (getA args "body"))),
         ("hs_timestamp", .str timestamp)])]))) (fun noteData =>
      bindM (hubspot ("/crm/v3/objects/notes/" ++ jsStringU (getF noteData "id")
          ++ "/associations/contacts/" ++ contactId ++ "/note_to_contact") "PUT" none)
        (fun _ =>
          pureM (.obj ([("success", .bool true)]
            ++ optF "noteId" (getF noteData "id")
            ++ [("contactId", .str contactId)]
            ++ optF "properties" (getF noteData "properties"))))))

/-- `hubspot_create_task`: create the task, then associate it. -/
def createTaskHandler (args : JsObj) : M Json :=
  let contactId := jsStringU (getA args "contactId")
  bindM (if truthyO (getA args "dueDate")
         then pureM (jsStringU (getA args "dueDate")) else tomorrowM) (fun dueDate =>
    let properties : JsObj :=
      [("hs_task_subject", .str (jsStringU (getA args "subject"))),
       ("hs_timestamp", .str dueDate),
       ("hs_task_status", .str "NOT_STARTED")]
      ++ (if truthyO (getA args "body") then
            [("hs_task_body", Json.str (jsStringU (getA args "body")))] else [])
      ++ (if truthyO (getA args "ownerId") then
            [("hubspot_owner_id", Json.str (jsStringU (getA args "ownerId")))] else [])
      ++ (if truthyO (getA args "priority") then
            [("hs_task_priority", Json.str (jsStringU (getA args "priority")))] else [])
    bindM (hubspot "/crm/v3/objects/tasks" "POST"
        (some (.obj [("properties", .obj properties)]))) (fun taskData =>
      bindM (hubspot ("/crm/v3/objects/tasks/" ++ jsStringU (getF taskData "id")
          ++ "/associations/contacts/" ++ contactId ++ "/task_to_contact") "PUT" none)
        (fun _ =>
          pureM (.obj ([("success", .bool true)]
            ++ optF "taskId" (getF taskData "id")
            ++ [("contactId", .str contactId)]
            ++ optF "properties" (getF taskData "properties"))))))

/-- `hubspot_search_tasks`. -/
def searchTasksHandler (args : JsObj) : M Json :=
  bindM (hubspot "/crm/v3/objects/tasks/search" "POST" (some (searchTasksBody args)))
    (fun data =>
      pureM (.obj (optF "total" (getF data "total")
        ++ [("results", .arr ((resultsOf data).map (fun t =>
              .obj (optF "id" (getF t "id") ++ optF "properties" (getF t "properties")))))]
        ++ optF "paging" (getF data "paging"))))

/-- The update bag of `hubspot_update_task` (each field present only
when its argument is truthy). -/
def updateTaskBag (args : JsObj) : JsObj :=
  (if truthyO (getA args "status") then
     [("hs_task_status", Json.str (jsStringU (getA args "status")))] else [])
  ++ (if truthyO (getA args "subject") then
        [("hs_task_subject", Json.str (jsStringU (getA args "subject")))] else [])
  ++ (if truthyO (getA args "body") then
        [("hs_task_body", Json.str (jsStringU (getA args "body")))] else [])
  ++ (if truthyO (getA args "dueDate") then
        [("hs_timestamp", Json.str (jsStringU (getA args "dueDate")))] else [])
  ++ (if truthyO (getA args "ownerId") then
        [("hubspot_owner_id", Json.str (jsStringU (getA args "ownerId")))] else [])
  ++ (if truthyO (getA args "priority") then
        [("hs_task_priority", Json.str (jsStringU (getA args "priority")))] else [])

/-- `hubspot_update_task`: a validation error before any network call
when no field was supplied. -/
def updateTaskHandler (args : JsObj) : M Json :=
  let taskId := jsStringU (getA args "taskId")
  let properties := updateTaskBag args
  if properties.isEmpty then throwM "At least one property to update must be provided"
  else
    bindM (hubspot ("/crm/v3/objects/tasks/" ++ taskId) "PATCH"
        (some (.obj [("properties", .obj properties)]))) (fun taskData =>
      pureM (.obj ([("success", .bool true)]
        ++ optF "taskId" (getF taskData "id")
        ++ optF "properties" (getF taskData "properties"))))

/-- `hubspot_get_deal`. -/
def getDealHandler (args : JsObj) : M Json :=
  hubspot ("/crm/v3/objects/deals/" ++ jsStringU (getA args "id") ++ "?"
    ++ renderQS (propsParams (getA args "properties"))) "GET" none

/-- The property bag of `hubspot_create_deal`: `dealname` always,
optional fields only when truthy. -/
def createDealBag (args : JsObj) : JsObj :=
  [("dealname", Json.str (jsStringU (getA args "dealname")))]
  ++ (if truthyO (getA args "amount") then
        [("amount", Json.str (jsStringU (getA args "amount")))] else [])
  ++ (if truthyO (getA args "closedate") then
        [("closedate", Json.str (jsStringU (getA args "closedate")))] else [])
  ++ (if truthyO (getA args "pipeline") then
        [("pipeline", Json.str (jsStringU (getA args "pipeline")))] else [])
  ++ (if truthyO (getA args "dealstage") then
        [("dealstage", Json.str (jsStringU (getA args "dealstage")))] else [])
  ++ (if truthyO (getA args "ownerId") then
        [("hubspot_owner_id", Json.str (jsStringU (getA args "ownerId")))] else [])

/-- `hubspot_create_deal`: the primary create, then (when supplied) the
contact association, then (when supplied) the company association, each
awaited before the next step; any failure rejects the whole call. -/
def createDealHandler (args : JsObj) : M Json :=
  bindM (hubspot "/crm/v3/objects/deals" "POST"
      (some (.obj [("properties", .obj (createDealBag args))]))) (fun dealData =>
    bindM (if truthyO (getA args "contactId") then
             bindM (hubspot ("/crm/v3/objects/deals/" ++ jsStringU (getF dealData "id")
                 ++ "/associations/contacts/" ++ jsStringU (getA args "contactId")
                 ++ "/deal_to_contact") "PUT" none) (fun _ => pureM ())
           else pureM ()) (fun _ =>
      bindM (if truthyO (getA args "companyId") then
               bindM (hubspot ("/crm/v3/objects/deals/" ++ jsStringU (getF dealData "id")
                   ++ "/associations/companies/" ++ jsStringU (getA args "companyId")
                   ++ "/deal_to_company") "PUT" none) (fun _ => pureM ())
             else pureM ()) (fun _ =>
        pureM (.obj ([("success", .bool true)]
          ++ optF "dealId" (getF dealData "id")
          ++ optF "properties" (getF dealData "properties")
          ++ [("associations", .obj
                [("contactId", jsOrJ (getA args "contactId") .null),
                 ("companyId", jsOrJ (getA args "companyId") .null)])])))))

/-- The update bag of `hubspot_update_deal`. -/
def updateDealBag (args : JsObj) : JsObj :=
  (if truthyO (getA args "dealname") then
     [("dealname", Json.str (jsStringU (getA args "dealname")))] else [])
  ++ (if truthyO (getA args "amount") then
        [("amount", Json.str (jsStringU (getA args "amount")))] else [])
  ++ (if truthyO (getA args "closedate") then
        [("closedate", Json.str (jsStringU (getA args "closedate")))] else [])
  ++ (if truthyO (getA args "dealstage") then
        [("dealstage", Json.str (jsStringU (getA args "dealstage")))] else [])
  ++ (if truthyO (getA args "ownerId") then
        [("hubspot_owner_id", Json.str (jsStringU (getA args "ownerId")))] else [])

/-- `hubspot_update_deal`: a validation error before any network call
when no field was supplied. -/
def updateDealHandler (args : JsObj) : M Json :=
  let dealId := jsStringU (getA args "id")
  let properties := updateDealBag args
  if properties.isEmpty then throwM "At least one property to update must be provided"
  else
    bindM (hubspot ("/crm/v3/objects/deals/" ++ dealId) "PATCH"
        (some (.obj [("properties", .obj properties)]))) (fun dealData =>
      pureM (.obj ([("success", .bool true)]
        ++ optF "dealId" (getF dealData "id")
        ++ optF "properties" (getF dealData "properties"))))

/-- `hubspot_search_deals`. -/
def searchDealsHandler (args : JsObj) : M Json :=
  bindM (hubspot "/crm/v3/objects/deals/search" "POST" (some (searchDealsBody args)))
    (fun data =>
      pureM (.obj (optF "total" (getF data "total")
        ++ [("results", .arr ((resultsOf data).map (fun d =>
              .obj (optF "id" (getF d "id") ++ optF "properties" (getF d "properties")))))]
        ++ optF "paging" (getF data "paging"))))

/-- `hubspot_delete_deal`: one DELETE, then a `{success, deleted}`
object carrying the caller's id back. -/
def deleteDealHandler (args : JsObj) : M Json :=
  bindM (hubspot ("/crm/v3/objects/deals/" ++ jsStringU (getA args "id")) "DELETE" none)
    (fun _ => pureM (.obj ([("success", .bool true)] ++ optF "deleted" (getA args "id"))))

/-- `hubspot_deal_properties`. -/
def dealPropertiesHandler (_args : JsObj) : M Json :=
  bindM (hubspot "/crm/v3/properties/deals" "GET" none) (fun data =>
    pureM (.arr ((resultsOf data).map propertySchemaEntry)))

/-- `hubspot_list_pipelines`. -/
def listPipelinesHandler (_args : JsObj) : M Json :=
  bindM (hubspot "/crm/v3/pipelines/deals" "GET" none) (fun data =>
    pureM (.arr ((resultsOf data).map (fun p => .obj (
      optF "id" (getF p "id") ++ optF "label" (getF p "label")
      ++ [("stages", .arr ((arrElems (getF p "stages")).map (fun s => .obj (
            optF "id" (getF s "id") ++ optF "label" (getF s "label")
            ++ optF "displayOrder" (getF s "displayOrder")))))])))))

/-! ## Tool Catalog and dispatch (src/api/mcp.ts lines 120-666 and
669-1108) -/

/-- One entry of the static Tool Catalog.  Only the `name` field is
modelled: `description` and `inputSchema` are advisory documentation
for the caller, never read by the dispatch or validation code. -/
structure ToolDef where
  name : String

/-- The static Tool Catalog, in source order.  Its 29 names coincide
exactly with the cases of the dispatch switch. -/
def TOOLS : List ToolDef :=
  [⟨"hubspot_list_contacts"⟩, ⟨"hubspot_get_contact"⟩, ⟨"hubspot_create_contact"⟩,
   ⟨"hubspot_update_contact"⟩, ⟨"hubspot_delete_contact"⟩, ⟨"hubspot_search_contacts"⟩,
   ⟨"hubspot_list_companies"⟩, ⟨"hubspot_get_company"⟩, ⟨"hubspot_create_company"⟩,
   ⟨"hubspot_update_company"⟩, ⟨"hubspot_delete_company"⟩, ⟨"hubspot_search_companies"⟩,
   ⟨"hubspot_contact_properties"⟩, ⟨"hubspot_company_properties"⟩,
   ⟨"hubspot_list_owners"⟩, ⟨"hubspot_get_owner"⟩, ⟨"hubspot_get_engagements"⟩,
   ⟨"hubspot_log_email"⟩, ⟨"hubspot_create_note"⟩, ⟨"hubspot_create_task"⟩,
   ⟨"hubspot_search_tasks"⟩, ⟨"hubspot_update_task"⟩, ⟨"hubspot_get_deal"⟩,
   ⟨"hubspot_create_deal"⟩, ⟨"hubspot_update_deal"⟩, ⟨"hubspot_search_deals"⟩,
   ⟨"hubspot_delete_deal"⟩, ⟨"hubspot_deal_properties"⟩, ⟨"hubspot_list_pipelines"⟩]

/-- The catalog's name set. -/
def toolNames : List String := TOOLS.map ToolDef.name

/-- The dispatch switch of `handleTool`: strict string comparison
against each case in source order; an unmatched name throws
`Unknown tool: {name}`.  (The enclosing function's wrapping of the
result as an MCP content block is performed by the router model
below.) -/
def handleTool (name : String) (args : JsObj) : M Json :=
  if name == "hubspot_list_contacts" then listContactsHandler args
  else if name == "hubspot_get_contact" then getContactHandler args
  else if name == "hubspot_create_contact" then createContactHandler args
  else if name == "hubspot_update_contact" then updateContactHandler args
  else if name == "hubspot_delete_contact" then deleteContactHandler args
  else if name == "hubspot_search_contacts" then searchContactsHandler args
  else if name == "hubspot_list_companies" then listCompaniesHandler args
  else if name == "hubspot_get_company" then getCompanyHandler args
  else if name == "hubspot_create_company" then createCompanyHandler args
  else if name == "hubspot_update_company" then updateCompanyHandler args
  else if name == "hubspot_delete_company" then deleteCompanyHandler args
  else if name == "hubspot_search_companies" then searchCompaniesHandler args
  else if name == "hubspot_contact_properties" then contactPropertiesHandler args
  else if name == "hubspot_company_properties" then companyPropertiesHandler args
  else if name == "hubspot_list_owners" then listOwnersHandler args
  else if name == "hubspot_get_owner" then getOwnerHandler args
  else if name == "hubspot_get_engagements" then getEngagementsHandler args
  else if name == "hubspot_log_email" then logEmailHandler args
  else if name == "hubspot_create_note" then createNoteHandler args
  else if name == "hubspot_create_task" then createTaskHandler args
  else if name == "hubspot_search_tasks" then searchTasksHandler args
  else if name == "hubspot_update_task" then updateTaskHandler args
  else if name == "hubspot_get_deal" then getDealHandler args
  else if name == "hubspot_create_deal" then createDealHandler args
  else if name == "hubspot_update_deal" then updateDealHandler args
  else if name == "hubspot_search_deals" then searchDealsHandler args
  else if name == "hubspot_delete_deal" then deleteDealHandler args
  else if name == "hubspot_deal_properties" then dealPropertiesHandler args
  else if name == "hubspot_list_pipelines" then listPipelinesHandler args
  else throwM ("Unknown tool: " ++ name)

/-! ## Protocol Router (src/api/mcp.ts lines 1116-1172) -/

/-- Quote a string as a JSON string literal, escaping the characters
`JSON.stringify` always escapes (quote, backslash, the common control
characters).  Exotic control characters are out of the modelled
domain. -/
def jsonQuote (s : String) : String :=
  "\"" ++ String.join (s.data.map (fun c =>
    if c == '"' then "\\\""
    else if c == '\\' then "\\\\"
    else if c == '\n' then "\\n"
    else if c == '\t' then "\\t"
    else if c == '\r' then "\\r"
    else String.singleton c)) ++ "\""

mutual
/-- `JSON.stringify(result, null, 2)` up to whitespace: keys with
`undefined` values cannot occur here (the embedding drops them at
construction).  The pretty-printer's layout (indentation) is not
modelled; no verified property depends on this string. -/
def stringifyJson : Json → String
  | .null => "null"
  | .bool b => cond b "true" "false"
  | .num n => toString n
  | .str s => jsonQuote s
  | .arr xs => "[" ++ stringifyArr xs ++ "]"
  | .obj fs => "\x7b" ++ stringifyObj fs ++ "\x7d"
termination_by structural j => j

/-- Array elements, comma-separated. -/
def stringifyArr : List Json → String
  | [] => ""
  | [x] => stringifyJson x
  | x :: xs => stringifyJson x ++ "," ++ stringifyArr xs
termination_by structural l => l

/-- Object fields, comma-separated. -/
def stringifyObj : List (String × Json) → String
  | [] => ""
  | [kv] => jsonQuote kv.1 ++ ":" ++ stringifyJson kv.2
  | kv :: rest => jsonQuote kv.1 ++ ":" ++ stringifyJson kv.2 ++ "," ++ stringifyObj rest
termination_by structural l => l
end

/-- The MCP content wrapping of a successful tool result:
`{content: [{type: "text", text: JSON.stringify(result, null, 2)}]}`. -/
def contentWrap (r : Json) : Json :=
  .obj [("content", .arr [.obj [("type", .str "text"), ("text", .str (stringifyJson r))]])]

/-- The decoded fields of an inbound request: the HTTP method and the
destructured `method`/`params`/`id` of the JSON-RPC body (absent fields
are `undefined`). -/
structure RpcRequest where
  httpMethod : String
  rpcMethod : Option Json
  params : Option Json
  id : Option Json

/-- An HTTP response: status code and JSON body (`null` standing for
the empty body of the preflight reply). -/
structure RpcResponse where
  status : Nat
  body : Json

/-- A JSON-RPC envelope: `jsonrpc`, then the result or error member,
then the echoed `id` (dropped at serialization when the request carried
none). -/
def rpcEnvelope (member : String × Json) (idv : Option Json) : Json :=
  .obj ([("jsonrpc", .str "2.0"), member] ++ optF "id" idv)

/-- A JSON-RPC success body. -/
def rpcResultBody (r : Json) (idv : Option Json) : Json := rpcEnvelope ("result", r) idv

/-- A JSON-RPC error body with code and message. -/
def rpcErrorBody (code : Int) (msg : String) (idv : Option Json) : Json :=
  rpcEnvelope ("error", .obj [("code", .num code), ("message", .str msg)]) idv

/-- Strict comparison of the switch subject against a string case. -/
def methodIs (m : Option Json) (s : String) : Bool :=
  match m with
  | some (.str t) => t == s
  | _ => false

/-- The fixed `initialize` result. -/
def initializeResult : Json :=
  .obj [("protocolVersion", .str "2024-11-05"),
        ("capabilities", .obj [("tools", .obj [])]),
        ("serverInfo", .obj [("name", .str "hubspot-crm-mcp"),
                             ("version", .str "1.3.0")])]

/-- The `tools/list` result (schemas held by the catalog are not
modelled, see `ToolDef`). -/
def toolsListResult : Json :=
  .obj [("tools", .arr (TOOLS.map (fun t => .obj [("name", .str t.name)])))]

/-- The argument bag passed to the dispatcher:
`params.arguments || {}`, read as a field bag (property access on a
non-object yields `undefined` for every name, i.e. an empty bag). -/
def argsOfParams (p : Json) : JsObj := fieldsOf (jsOrJ (getF p "arguments") (.obj []))

/-- Dispatch on `params.name`: the switch compares with `===`, so a
non-string name matches no case and falls to the default, whose
template literal stringifies it. -/
def runTool (nameJ : Option Json) (args : JsObj) : M Json :=
  match nameJ with
  | some (.str s) => handleTool s args
  | other => throwM ("Unknown tool: " ++ jsStringU other)

/-- The Vercel handler: CORS preflight, POST-only, then the JSON-RPC
method switch; every dispatcher failure is caught at this single
boundary and converted to a code −32603 error body under HTTP 200 with
the request id echoed. -/
def handler (req : RpcRequest) (env : Env) : RpcResponse :=
  if req.httpMethod == "OPTIONS" then ⟨200, .null⟩
  else if !(req.httpMethod == "POST") then
    ⟨405, .obj [("error", .str "Method not allowed")]⟩
  else if methodIs req.rpcMethod "initialize" then
    ⟨200, rpcResultBody initializeResult req.id⟩
  else if methodIs req.rpcMethod "tools/list" then
    ⟨200, rpcResultBody toolsListResult req.id⟩
  else if methodIs req.rpcMethod "tools/call" then
    match req.params with
    | none =>
      -- `params.name` on an absent params object raises a TypeError,
      -- caught by the same boundary (the engine's message text).
      ⟨200, rpcErrorBody (-32603)
        "Cannot read properties of undefined (reading 'name')" req.id⟩
    | some pj =>
      match runTool (getF pj "name") (argsOfParams pj) env [] with
      | (.ok r, _) => ⟨200, rpcResultBody (contentWrap r) req.id⟩
      | (.error e, _) => ⟨200, rpcErrorBody (-32603) e req.id⟩
  else
    ⟨200, rpcErrorBody (-32601) ("Method not found: " ++ jsStringU req.rpcMethod) req.id⟩

/-! ## Specification-side predicates (used to state the claims) -/

/-- Is the value a string? -/
def Json.isStr : Json → Bool
  | .str _ => true
  | _ => false

/-- Is the optional value an array? -/
def isArrO : Option Json → Bool
  | some (.arr _) => true
  | _ => false

/-- The exclusion predicate as the (amended) specification words it: an
object matches when its properties bag is present and truthy and the
string coercion of its `company` (resp. `jobtitle`) property — falsy
values coercing to the empty string — is nonempty and case-insensitively
contains some exclusion term as a substring.  Defined from the
specification text, to be compared with the source-shaped
`matchesExclusion`. -/
def specMatched (item : Json) (cs ts : List String) : Bool :=
  match getF item "properties" with
  | none => false
  | some p =>
    if !truthy p then false
    else
      (!(coercedProp p "company" == "")
        && cs.any (fun t => strContains (coercedProp p "company") (toLower t)))
      || (!(coercedProp p "jobtitle" == "")
        && ts.any (fun t => strContains (coercedProp p "jobtitle") (toLower t)))

/-! ## Concrete environments used by witnesses and counterexamples -/

/-- A benign environment: credential present, every remote call
answered with an empty object. -/
def envSample : Env :=
  ⟨some "token", fun _ => .ok (.obj []), "2024-01-15T10:30:00Z", "2024-01-16T10:30:00Z"⟩

/-- An environment for the engagement scenario: the `calls` association
lookup fails with a 500, the `emails` association lookup returns one
association, and the subsequent batch read returns one email object. -/
def envEngagements : Env :=
  ⟨some "token",
   fun c =>
     if c.path == "/crm/v4/objects/contacts/42/associations/calls" then .err 500 "boom"
     else if c.path == "/crm/v4/objects/contacts/42/associations/emails" then
       .ok (.obj [("results", .arr [.obj [("toObjectId", .str "900")]])])
     else
       .ok (.obj [("results", .arr [.obj [("id", .str "900"),
             ("properties", .obj [("hs_email_subject", .str "hello")])]])]),
   "2024-01-15T10:30:00Z", "2024-01-16T10:30:00Z"⟩

/-- An environment for the composite-create scenario: the deal create
returns an object with id 501, every other call succeeds trivially. -/
def envCreateDeal : Env :=
  ⟨some "token",
   fun c =>
     if c.path == "/crm/v3/objects/deals" then .ok (.obj [("id", .str "501")])
     else .ok (.obj []),
   "2024-01-15T10:30:00Z", "2024-01-16T10:30:00Z"⟩

/-- An environment where every association PUT fails with a 502 while
everything else succeeds; used to witness the fail-the-whole-call
behavior of composite creates. -/
def envAssocFails : Env :=
  ⟨some "token",
   fun c =>
     if c.httpMethod == "PUT" then .err 502 "assoc down"
     else if c.path == "/crm/v3/objects/deals" then .ok (.obj [("id", .str "501")])
     else .ok (.obj [("id", .str "700")]),
   "2024-01-15T10:30:00Z", "2024-01-16T10:30:00Z"⟩

/-- An environment where every association lookup (GET) returns one
association but every batch read (POST) fails with a 500; used to
witness that a batch-read failure degrades one engagement type to an
empty list. -/
def envBatchFails : Env :=
  ⟨some "token",
   fun c =>
     if c.httpMethod == "POST" then .err 500 "batch down"
     else .ok (.obj [("results", .arr [.obj [("toObjectId", .str "7")]])]),
   "2024-01-15T10:30:00Z", "2024-01-16T10:30:00Z"⟩

theorem lookupL_append (xs ys : JsObj) (k : String) :
    lookupL (xs ++ ys) k
      = match lookupL xs k with
        | some v => some v
        | none => lookupL ys k := by
  induction xs with
  | nil => simp [lookupL]
  | cons kv rest ih =>
    cases kv with
    | mk k1 v1 =>
      by_cases h : k1 = k
      · simp [lookupL, h]
      · simp [lookupL, h, ih]

theorem charsStartsWith_refl (l : List Char) : charsStartsWith l l = true := by
  induction l with
  | nil => rfl
  | cons c cs ih => simp [charsStartsWith, ih]

theorem charsContains_append (a b : List Char) : charsContains (a ++ b) b = true := by
  induction a with
  | nil =>
    cases b with
    | nil => rfl
    | cons c cs => simp [charsContains, charsStartsWith_refl]
  | cons x rest ih => simp [charsContains, ih]

theorem strContains_append (a b : String) : strContains (a ++ b) b = true := by
  show charsContains (a ++ b).data b.data = true
  have h : (a ++ b).data = a.data ++ b.data := rfl
  rw [h]
  exact charsContains_append _ _

theorem handleTool_unknown (nm : String) (args : JsObj) (env : Env) (tr : List HubCall)
    (h : nm ∉ toolNames) :
    handleTool nm args env tr = (.error ("Unknown tool: " ++ nm), tr) := by
  simp only [toolNames, TOOLS, List.map, List.mem_cons, List.not_mem_nil, or_false,
    not_or] at h
  obtain ⟨h1, h2, h3, h4, h5, h6, h7, h8, h9, h10, h11, h12, h13, h14, h15, h16, h17,
    h18, h19, h20, h21, h22, h23, h24, h25, h26, h27, h28, h29⟩ := h
  simp [handleTool, h1, h2, h3, h4, h5, h6, h7, h8, h9, h10, h11, h12, h13, h14, h15,
    h16, h17, h18, h19, h20, h21, h22, h23, h24, h25, h26, h27, h28, h29, throwM]

theorem handler_tools_call (pj : Json) (idv : Option Json) (env : Env) :
    handler ⟨"POST", some (.str "tools/call"), some pj, idv⟩ env
      = match runTool (getF pj "name") (argsOfParams pj) env [] with
        | (.ok r, _) => ⟨200, rpcResultBody (contentWrap r) idv⟩
        | (.error e, _) => ⟨200, rpcErrorBody (-32603) e idv⟩ := rfl

theorem matchesExclusion_eq_specMatched (item : Json) (cs ts : List String) :
    matchesExclusion item (cs.map toLower) (ts.map toLower) = specMatched item cs ts := by
  unfold matchesExclusion specMatched
  cases hgf : getF item "properties" with
  | none => simp only [hgf]
  | some p =>
    simp only [hgf]
    cases htr : truthy p with
    | false => simp only [htr, Bool.not_false, if_true]
    | true =>
      simp only [htr, Bool.not_true, Bool.false_eq_true, if_false]
      have hA : ((cs.map toLower).any fun exc => strContains (coercedProp p "company") exc)
          = cs.any fun t => strContains (coercedProp p "company") (toLower t) := by
        rw [List.any_map]; rfl
      have hB : ((ts.map toLower).any fun exc => strContains (coercedProp p "jobtitle") exc)
          = ts.any fun t => strContains (coercedProp p "jobtitle") (toLower t) := by
        rw [List.any_map]; rfl
      rw [hA, hB]
      rcases hA2 : (!(coercedProp p "company" == "")
          && cs.any fun t => strContains (coercedProp p "company") (toLower t)) with _ | _
      <;> rcases hB2 : (!(coercedProp p "jobtitle" == "")
          && ts.any fun t => strContains (coercedProp p "jobtitle") (toLower t)) with _ | _
      <;> simp only [hA2, hB2, Bool.false_eq_true, if_false, if_true,
            Bool.true_or, Bool.false_or, Bool.or_false, Bool.or_true]

theorem specMatched_nil (o : Json) : specMatched o [] [] = false := by
  unfold specMatched
  cases hgf : getF o "properties" with
  | none => rfl
  | some p => cases truthy p <;> simp

theorem truncateValue_inf (v : Json) : truncateValue v .inf = v := by
  cases v <;> rfl

/-- Claim C1: a string property no longer than the bound passes through
truncation unchanged; a longer one becomes exactly its first
`maxPropertyLength` characters plus the truncation marker; non-string
values pass through; and the caller-supplied sentinel 0 maps to the
unbounded mode, under which nothing is ever truncated — including
through `compactResult`, whose `properties` member is exactly the
truncated bag. -/
theorem C1_truncation :
    (∀ (s : String) (n : Nat), s.length ≤ n →
      truncateValue (.str s) (.fin (n : Int)) = .str s)
  ∧ (∀ (s : String) (n : Nat), n < s.length →
      truncateValue (.str s) (.fin (n : Int)) = .str (strTake s n ++ truncMarker)
      ∧ (strTake s n).length = n ∧ (strTake s n).data = s.data.take n)
  ∧ (∀ (v : Json) (m : MaxLen), v.isStr = false → truncateValue v m = v)
  ∧ maxLenOfArg (some (.num 0)) = .inf
  ∧ (∀ props : JsObj, truncateProperties props .inf = props)
  ∧ (∀ (item : Json) (m : MaxLen) (meta : Bool) (props : JsObj),
      getF item "properties" = some (.obj props) →
      lookupL (compactResult item m meta) "properties"
        = some (.obj (truncateProperties props m))) := by
  refine ⟨?_, ?_, ?_, rfl, ?_, ?_⟩
  · intro s n h
    simp only [truncateValue]
    rw [if_neg (by exact_mod_cast not_lt.mpr h)]
  · intro s n h
    refine ⟨?_, ?_, rfl⟩
    · simp only [truncateValue]
      rw [if_pos (by exact_mod_cast h), Int.toNat_ofNat]
    · show (s.data.take n).length = n
      rw [List.length_take]
      have hh : s.length = s.data.length := rfl
      omega
  · intro v m h
    cases v <;> cases m <;> simp_all [truncateValue, Json.isStr]
  · intro props
    induction props with
    | nil => rfl
    | cons kv rest ih =>
      cases kv with
      | mk k v =>
        show (k, truncateValue v .inf) :: truncateProperties rest .inf = (k, v) :: rest
        rw [truncateValue_inf, ih]
  · intro item m meta props h
    unfold compactResult propertiesField
    simp only [h]
    rw [lookupL_append, lookupL_append]
    have hA : lookupL (optF "id" (getF item "id")) "properties" = none := by
      cases getF item "id" <;> rfl
    rw [hA]
    rfl

/-- Claim C2 (amended): the kept list is exactly the order-preserving
subsequence of objects not matched by `specMatched` — the exclusion
predicate with the empty-coercion guard (a missing or falsy `company` or
`jobtitle`, and an empty coerced value, never match) — the excluded
count equals the length difference, and empty exclusion sets return the
input unchanged with count 0. -/
theorem C2_filter_amended (results : List Json) (cs ts : List String) :
    (filterResults results cs ts).1 = results.filter (fun o => !specMatched o cs ts)
  ∧ (filterResults results cs ts).2
      = results.length - (filterResults results cs ts).1.length
  ∧ (filterResults results cs ts).1.Sublist results
  ∧ (cs = [] → ts = [] → filterResults results cs ts = (results, 0)) := by
  by_cases hcb : (cs.isEmpty && ts.isEmpty) = true
  · obtain ⟨hcs, hts⟩ := Bool.and_eq_true_iff.mp hcb
    obtain rfl : cs = [] := List.isEmpty_iff.mp hcs
    obtain rfl : ts = [] := List.isEmpty_iff.mp hts
    refine ⟨?_, ?_, ?_, fun _ _ => rfl⟩
    · show results = results.filter fun o => !specMatched o [] []
      rw [show (fun o => !specMatched o ([] : List String) ([] : List String))
            = fun _ => true from funext fun o => by rw [specMatched_nil]; rfl]
      rw [List.filter_true]
    · show (0 : Nat) = results.length - results.length
      omega
    · exact List.Sublist.refl results
  · simp only [Bool.not_eq_true] at hcb
    have hf : (fun item => !matchesExclusion item (cs.map toLower) (ts.map toLower))
        = fun o => !specMatched o cs ts :=
      funext fun o => by rw [matchesExclusion_eq_specMatched]
    have hfr : filterResults results cs ts
        = (results.filter (fun o => !specMatched o cs ts),
           results.length - (results.filter (fun o => !specMatched o cs ts)).length) := by
      unfold filterResults
      simp only [hcb, Bool.false_eq_true, if_false]
      rw [hf]
    refine ⟨by rw [hfr], by rw [hfr], by rw [hfr]; exact List.filter_sublist _, ?_⟩
    rintro rfl rfl
    simp at hcb

/-- Claim C3: a `tools/call` POST whose tool name lies outside the Tool
Catalog is answered with HTTP 200 carrying a JSON-RPC error of code
−32603 whose message "Unknown tool: ..." contains the unknown name, the
request id echoed; the router returns a response rather than
propagating a failure. -/
theorem C3_unknown_tool (nm : String) (argsJ : Json) (env : Env) (idv : Option Json)
    (h : nm ∉ toolNames) :
    handler ⟨"POST", some (.str "tools/call"),
        some (.obj [("name", .str nm), ("arguments", argsJ)]), idv⟩ env
      = ⟨200, rpcErrorBody (-32603) ("Unknown tool: " ++ nm) idv⟩
  ∧ strContains ("Unknown tool: " ++ nm) nm = true := by
  constructor
  · rw [handler_tools_call]
    rw [show runTool (getF (Json.obj [("name", .str nm), ("arguments", argsJ)]) "name")
          (argsOfParams (Json.obj [("name", .str nm), ("arguments", argsJ)]))
          = handleTool nm (argsOfParams (Json.obj [("name", .str nm), ("arguments", argsJ)]))
        from rfl]
    rw [handleTool_unknown nm _ env [] h]
  · exact strContains_append "Unknown tool: " nm

theorem lookupL_append_none (xs ys : JsObj) (k : String) (h : lookupL xs k = none) :
    lookupL (xs ++ ys) k = lookupL ys k := by
  rw [lookupL_append, h]

theorem lookup_head_iff (xs ys : JsObj) (k : String) (v : Json)
    (hys : lookupL ys k = none) :
    (lookupL (xs ++ ys) k = some v) ↔ (lookupL xs k = some v) := by
  rw [lookupL_append]
  cases h : lookupL xs k
  · simp [hys]
  · simp

theorem lookup_truthyMetaField (item : Json) (k : String) (v : Json) :
    (lookupL (truthyMetaField item k) k = some v)
      ↔ (getF item k = some v ∧ truthy v = true) := by
  unfold truthyMetaField
  cases hg : getF item k with
  | none => simp [lookupL]
  | some w =>
    cases htw : truthy w with
    | false =>
      simp only [htw, Bool.false_eq_true, if_false, lookupL]
      constructor
      · intro hv; exact absurd hv (by simp)
      · rintro ⟨hv, ht⟩
        injection hv with hv
        subst hv
        rw [htw] at ht
        exact absurd ht (by simp)
    | true =>
      simp only [htw, if_true, lookupL, if_pos rfl]
      constructor
      · intro hv
        injection hv with hv
        subst hv
        exact ⟨rfl, htw⟩
      · rintro ⟨hv, _⟩
        exact hv

theorem lookup_plainMetaField (item : Json) (k : String) (v : Json) :
    (lookupL (plainMetaField item k) k = some v) ↔ (getF item k = some v) := by
  unfold plainMetaField
  cases hg : getF item k with
  | none => simp [lookupL]
  | some w => simp [lookupL]

theorem lookup_truthyMetaField_ne (item : Json) (k k2 : String) (h : ¬ k = k2) :
    lookupL (truthyMetaField item k) k2 = none := by
  unfold truthyMetaField
  cases getF item k with
  | none => rfl
  | some w =>
    cases htw : truthy w with
    | false => simp [htw, lookupL]
    | true => simp [htw, lookupL, h]

theorem lookup_plainMetaField_ne (item : Json) (k k2 : String) (h : ¬ k = k2) :
    lookupL (plainMetaField item k) k2 = none := by
  unfold plainMetaField
  cases getF item k with
  | none => rfl
  | some w => simp [lookupL, h]

theorem lookup_propertiesField_ne (item : Json) (m : MaxLen) (k2 : String)
    (h : ¬ "properties" = k2) :
    lookupL (propertiesField item m) k2 = none := by
  unfold propertiesField
  cases getF item "properties" with
  | none => rfl
  | some p =>
    by_cases hc : (truthy p
        && (match p with | .obj _ => true | .arr _ => true | _ => false)) = true
    · simp [hc, lookupL, h]
    · simp [hc, lookupL]

theorem lookup_idField_ne (item : Json) (k2 : String) (h : ¬ "id" = k2) :
    lookupL (optF "id" (getF item "id")) k2 = none := by
  cases getF item "id" with
  | none => rfl
  | some w => simp [optF, lookupL, h]

theorem lookup_compactResult_meta (item : Json) (m : MaxLen) (meta : Bool) (k : String)
    (hid : ¬ "id" = k) (hpr : ¬ "properties" = k) :
    lookupL (compactResult item m meta) k = lookupL (metadataFields item meta) k := by
  unfold compactResult
  rw [List.append_assoc, lookupL_append_none _ _ _ (lookup_idField_ne item k hid),
    lookupL_append_none _ _ _ (lookup_propertiesField_ne item m k hpr)]

/-- Claim C6 (amended): `createdAt`, `updatedAt` and `url` appear in
compacted output iff `includeMetadata` is true and the source carried
the field with a truthy value; `archived` appears iff `includeMetadata`
is true and the source carried the field at all. -/
theorem C6_metadata_amended (item : Json) (m : MaxLen) (meta : Bool) :
    (∀ v, lookupL (compactResult item m meta) "createdAt" = some v
        ↔ meta = true ∧ getF item "createdAt" = some v ∧ truthy v = true)
  ∧ (∀ v, lookupL (compactResult item m meta) "updatedAt" = some v
        ↔ meta = true ∧ getF item "updatedAt" = some v ∧ truthy v = true)
  ∧ (∀ v, lookupL (compactResult item m meta) "archived" = some v
        ↔ meta = true ∧ getF item "archived" = some v)
  ∧ (∀ v, lookupL (compactResult item m meta) "url" = some v
        ↔ meta = true ∧ getF item "url" = some v ∧ truthy v = true) := by
  refine ⟨?_, ?_, ?_, ?_⟩
  all_goals intro v
  · rw [lookup_compactResult_meta item m meta "createdAt" (by decide) (by decide)]
    unfold metadataFields
    cases meta with
    | false => simp [lookupL]
    | true =>
      rw [if_pos rfl, List.append_assoc, List.append_assoc]
      rw [lookup_head_iff _ _ _ _ (by
        rw [lookupL_append_none _ _ _
              (lookup_truthyMetaField_ne item "updatedAt" _ (by decide)),
            lookupL_append_none _ _ _
              (lookup_plainMetaField_ne item "archived" _ (by decide))]
        exact lookup_truthyMetaField_ne item "url" _ (by decide))]
      rw [lookup_truthyMetaField]
      simp
  · rw [lookup_compactResult_meta item m meta "updatedAt" (by decide) (by decide)]
    unfold metadataFields
    cases meta with
    | false => simp [lookupL]
    | true =>
      rw [if_pos rfl, List.append_assoc, List.append_assoc,
        lookupL_append_none _ _ _
          (lookup_truthyMetaField_ne item "createdAt" _ (by decide))]
      rw [lookup_head_iff _ _ _ _ (by
        rw [lookupL_append_none _ _ _
              (lookup_plainMetaField_ne item "archived" _ (by decide))]
        exact lookup_truthyMetaField_ne item "url" _ (by decide))]
      rw [lookup_truthyMetaField]
      simp
  · rw [lookup_compactResult_meta item m meta "archived" (by decide) (by decide)]
    unfold metadataFields
    cases meta with
    | false => simp [lookupL]
    | true =>
      rw [if_pos rfl, List.append_assoc, List.append_assoc,
        lookupL_append_none _ _ _
          (lookup_truthyMetaField_ne item "createdAt" _ (by decide)),
        lookupL_append_none _ _ _
          (lookup_truthyMetaField_ne item "updatedAt" _ (by decide))]
      rw [lookup_head_iff _ _ _ _
        (lookup_truthyMetaField_ne item "url" _ (by decide))]
      rw [lookup_plainMetaField]
      simp
  · rw [lookup_compactResult_meta item m meta "url" (by decide) (by decide)]
    unfold metadataFields
    cases meta with
    | false => simp [lookupL]
    | true =>
      rw [if_pos rfl, List.append_assoc, List.append_assoc,
        lookupL_append_none _ _ _
          (lookup_truthyMetaField_ne item "createdAt" _ (by decide)),
        lookupL_append_none _ _ _
          (lookup_truthyMetaField_ne item "updatedAt" _ (by decide)),
        lookupL_append_none _ _ _
          (lookup_plainMetaField_ne item "archived" _ (by decide))]
      rw [lookup_truthyMetaField]
      simp

/-- Claim C4 (amended): an absent or zero limit argument defaults to 20
(100 for the owners list); a nonzero numeric argument is sent as
`min n 100` (`min n 500` for owners), so positive arguments always land
in the documented range and are clamped down at the top, while negative
arguments pass through unclamped. -/
theorem C4_limit_amended (a : Option Json) :
    (a = none → effLimit a = 20 ∧ effLimitOwners a = 100)
  ∧ (a = some (.num 0) → effLimit a = 20 ∧ effLimitOwners a = 100)
  ∧ (∀ n : Int, a = some (.num n) → n ≠ 0 →
      effLimit a = min n 100 ∧ effLimitOwners a = min n 500)
  ∧ (∀ n : Int, a = some (.num n) → 0 < n →
      1 ≤ effLimit a ∧ effLimit a ≤ 100 ∧ 1 ≤ effLimitOwners a ∧ effLimitOwners a ≤ 500)
  ∧ (∀ n : Int, a = some (.num n) → n < 0 →
      effLimit a = n ∧ effLimitOwners a = n) := by
  have key : ∀ n : Int, n ≠ 0 →
      effLimit (some (.num n)) = min n 100
      ∧ effLimitOwners (some (.num n)) = min n 500 := by
    intro n hn
    unfold effLimit effLimitOwners numArg jsOrNum
    simp [hn]
  refine ⟨?_, ?_, ?_, ?_, ?_⟩
  · rintro rfl; exact ⟨rfl, rfl⟩
  · rintro rfl; exact ⟨rfl, rfl⟩
  · rintro n rfl hn; exact key n hn
  · rintro n rfl hn
    obtain ⟨h1, h2⟩ := key n (by omega)
    rw [h1, h2]
    refine ⟨le_min (by omega) (by norm_num), min_le_right _ _,
      le_min (by omega) (by norm_num), min_le_right _ _⟩
  · rintro n rfl hn
    obtain ⟨h1, h2⟩ := key n (by omega)
    rw [h1, h2]
    constructor
    · exact min_eq_left (by omega)
    · exact min_eq_left (by omega)

/-- Claim C5 (amended): each delete handler issues exactly one remote
DELETE call and never fetches the object; contact and company deletion
return `{success:true}` (no `deleted` field), while deal deletion
returns `{success:true, deleted:X}`. -/
theorem C5_delete_amended (env : Env) (tok i : String) (jc jco jd : Json)
    (ht : env.token = some tok)
    (h1 : env.respond ⟨"/crm/v3/objects/contacts/" ++ i, "DELETE", none⟩ = .ok jc)
    (h2 : env.respond ⟨"/crm/v3/objects/companies/" ++ i, "DELETE", none⟩ = .ok jco)
    (h3 : env.respond ⟨"/crm/v3/objects/deals/" ++ i, "DELETE", none⟩ = .ok jd) :
    handleTool "hubspot_delete_contact" [("id", .str i)] env []
      = (.ok (.obj [("success", .bool true)]),
         [⟨"/crm/v3/objects/contacts/" ++ i, "DELETE", none⟩])
  ∧ handleTool "hubspot_delete_company" [("id", .str i)] env []
      = (.ok (.obj [("success", .bool true)]),
         [⟨"/crm/v3/objects/companies/" ++ i, "DELETE", none⟩])
  ∧ handleTool "hubspot_delete_deal" [("id", .str i)] env []
      = (.ok (.obj [("success", .bool true), ("deleted", .str i)]),
         [⟨"/crm/v3/objects/deals/" ++ i, "DELETE", none⟩])
  ∧ lookupL [("success", Json.bool true)] "deleted" = none := by
  refine ⟨?_, ?_, ?_, rfl⟩
  · show hubspot ("/crm/v3/objects/contacts/" ++ i) "DELETE" none env [] = _
    simp only [hubspot, ht, h1, List.nil_append]
    rfl
  · show hubspot ("/crm/v3/objects/companies/" ++ i) "DELETE" none env [] = _
    simp only [hubspot, ht, h2, List.nil_append]
    rfl
  · show bindM (hubspot ("/crm/v3/objects/deals/" ++ i) "DELETE" none)
        (fun _ => pureM (Json.obj ([("success", Json.bool true)]
          ++ optF "deleted" (getA [("id", Json.str i)] "id")))) env []
      = (Except.ok (Json.obj [("success", Json.bool true), ("deleted", Json.str i)]),
         [⟨"/crm/v3/objects/deals/" ++ i, "DELETE", none⟩])
    simp only [bindM, hubspot, pureM, ht, h3, List.nil_append]
    rfl

/-- Claim C9: `update_task` and `update_deal` called with none of their
optional update fields supplied fail with the validation error whose
message contains "At least one property", with an empty call trace —
zero network calls. -/
theorem C9_update_validation (args : JsObj) (env : Env)
    (h1 : getA args "status" = none) (h2 : getA args "subject" = none)
    (h3 : getA args "body" = none) (h4 : getA args "dueDate" = none)
    (h5 : getA args "ownerId" = none) (h6 : getA args "priority" = none)
    (g1 : getA args "dealname" = none) (g2 : getA args "amount" = none)
    (g3 : getA args "closedate" = none) (g4 : getA args "dealstage" = none) :
    handleTool "hubspot_update_task" args env []
      = (.error "At least one property to update must be provided", [])
  ∧ handleTool "hubspot_update_deal" args env []
      = (.error "At least one property to update must be provided", [])
  ∧ strContains "At least one property to update must be provided"
      "At least one property" = true := by
  have hbag : updateTaskBag args = [] := by
    unfold updateTaskBag
    simp [truthyO, h1, h2, h3, h4, h5, h6]
  have hbag2 : updateDealBag args = [] := by
    unfold updateDealBag
    simp [truthyO, g1, g2, g3, g4, h5]
  refine ⟨?_, ?_, by decide⟩
  · rw [show handleTool "hubspot_update_task" args = updateTaskHandler args from rfl]
    simp [updateTaskHandler, hbag, throwM]
  · rw [show handleTool "hubspot_update_deal" args = updateDealHandler args from rfl]
    simp [updateDealHandler, hbag2, throwM]

theorem fetchEngagementType_assoc_err (env : Env) (tok cid t2 : String) (lim : Int)
    (st : Nat) (b : String) (tr : List HubCall)
    (ht : env.token = some tok)
    (h : env.respond (assocCall cid t2) = .err st b) :
    fetchEngagementType cid lim t2 env tr = (.ok [], tr ++ [assocCall cid t2]) := by
  simp only [assocCall] at h
  unfold fetchEngagementType catchM bindM hubspot
  simp only [ht, h, assocCall]

theorem fetchEngagementType_batch_err (env : Env) (tok cid t2 : String) (lim : Int)
    (j r : Json) (rs : List Json) (st : Nat) (b : String) (tr : List HubCall)
    (ht : env.token = some tok)
    (ha : env.respond (assocCall cid t2) = .ok j)
    (hres : getF j "results" = some (.arr (r :: rs)))
    (hb : env.respond ⟨"/crm/v3/objects/" ++ t2 ++ "/batch/read", "POST",
        some (batchReadBody t2
          ((jsSlice0 lim (r :: rs)).map (fun a => getF a "toObjectId")))⟩
      = .err st b) :
    fetchEngagementType cid lim t2 env tr
      = (.ok [], tr ++ [assocCall cid t2,
          ⟨"/crm/v3/objects/" ++ t2 ++ "/batch/read", "POST",
           some (batchReadBody t2
             ((jsSlice0 lim (r :: rs)).map (fun a => getF a "toObjectId")))⟩]) := by
  simp only [assocCall] at ha
  unfold fetchEngagementType catchM bindM hubspot
  simp only [ht, ha]
  simp only [show (("GET" : String) == "DELETE") = false from rfl, Bool.false_eq_true,
    if_false]
  simp only [hres, ht, hb]
  simp only [assocCall, List.append_assoc, List.singleton_append]

theorem fetchEmails_ok (env : Env) (tok cid : String) (tid e0 : Json) (es : List Json)
    (tr : List HubCall)
    (ht : env.token = some tok)
    (hassoc : env.respond (assocCall cid "emails")
      = .ok (.obj [("results", .arr [.obj [("toObjectId", tid)]])]))
    (hbatch : env.respond ⟨"/crm/v3/objects/emails/batch/read", "POST",
        some (batchReadBody "emails" [some tid])⟩
      = .ok (.obj [("results", .arr (e0 :: es))])) :
    fetchEngagementType cid 20 "emails" env tr
      = (.ok ((e0 :: es).map (fun e =>
          Json.obj (optF "id" (getF e "id") ++ optF "properties" (getF e "properties")))),
         tr ++ [assocCall cid "emails",
           ⟨"/crm/v3/objects/emails/batch/read", "POST",
            some (batchReadBody "emails" [some tid])⟩]) := by
  have hassoc2 : env.respond ⟨"/crm/v4/objects/contacts/" ++ cid ++ "/associations/"
      ++ "emails", "GET", none⟩
      = HubResp.ok (Json.obj [("results", Json.arr [Json.obj [("toObjectId", tid)]])]) :=
    hassoc
  have hbatch2 : env.respond ⟨"/crm/v3/objects/" ++ "emails" ++ "/batch/read", "POST",
      some (batchReadBody "emails" (List.map (fun a => getF a "toObjectId")
        (jsSlice0 20 [Json.obj [("toObjectId", tid)]])))⟩
      = HubResp.ok (Json.obj [("results", Json.arr (e0 :: es))]) := hbatch
  unfold fetchEngagementType catchM bindM hubspot
  simp only [ht, hassoc2]
  simp only [show (("GET" : String) == "DELETE") = false from rfl, Bool.false_eq_true,
    if_false]
  simp only [show getF (Json.obj [("results", Json.arr [Json.obj [("toObjectId", tid)]])])
      "results" = some (Json.arr [Json.obj [("toObjectId", tid)]]) from rfl,
    hbatch2,
    show (("POST" : String) == "DELETE") = false from rfl, Bool.false_eq_true, if_false,
    show getF (Json.obj [("results", Json.arr (e0 :: es))]) "results"
      = some (Json.arr (e0 :: es)) from rfl,
    pureM, List.append_assoc, List.singleton_append]
  simp only [ht]
  rfl

theorem bindM_ok {α β : Type} (x : M α) (f : α → M β) (env : Env)
    (tr tr2 : List HubCall) (a : α) (hx : x env tr = (.ok a, tr2)) :
    bindM x f env tr = f a env tr2 := by
  unfold bindM; rw [hx]

/-- Claim C7: when the `calls` association lookup fails, the
engagement fetch still succeeds as a whole, with `engagements.calls`
empty while `engagements.emails` carries the batch-read data (nonempty
here); and in general, in every environment, a per-type failure of
either the association lookup or the batch read is caught and yields an
empty list for exactly that type. -/
theorem C7_engagement_isolation (env : Env) (tok cid : String) (st : Nat) (berr : String)
    (tid e0 : Json) (es : List Json)
    (ht : env.token = some tok)
    (hcalls : env.respond (assocCall cid "calls") = .err st berr)
    (hassoc : env.respond (assocCall cid "emails")
      = .ok (.obj [("results", .arr [.obj [("toObjectId", tid)]])]))
    (hbatch : env.respond ⟨"/crm/v3/objects/emails/batch/read", "POST",
        some (batchReadBody "emails" [some tid])⟩
      = .ok (.obj [("results", .arr (e0 :: es))])) :
    handleTool "hubspot_get_engagements"
        [("contactId", .str cid), ("types", .arr [.str "calls", .str "emails"])] env []
      = (.ok (.obj [("contactId", .str cid),
          ("engagements", .obj [("calls", .arr []),
            ("emails", .arr ((e0 :: es).map (fun e =>
              Json.obj (optF "id" (getF e "id") ++ optF "properties" (getF e "properties")))))]),
          ("_meta", .obj [("typesRequested", .arr [.str "calls", .str "emails"])])]),
        [assocCall cid "calls", assocCall cid "emails",
         ⟨"/crm/v3/objects/emails/batch/read", "POST",
          some (batchReadBody "emails" [some tid])⟩])
  ∧ ((e0 :: es).map (fun e => Json.obj (optF "id" (getF e "id")
        ++ optF "properties" (getF e "properties")))) ≠ []
  ∧ (∀ (env2 : Env) (tok2 cid2 t2 : String) (lim : Int) (st2 : Nat) (b2 : String)
        (tr : List HubCall),
      env2.token = some tok2 →
      env2.respond (assocCall cid2 t2) = .err st2 b2 →
      fetchEngagementType cid2 lim t2 env2 tr = (.ok [], tr ++ [assocCall cid2 t2]))
  ∧ (∀ (env2 : Env) (tok2 cid2 t2 : String) (lim : Int) (j r : Json) (rs : List Json)
        (st2 : Nat) (b2 : String) (tr : List HubCall),
      env2.token = some tok2 →
      env2.respond (assocCall cid2 t2) = .ok j →
      getF j "results" = some (.arr (r :: rs)) →
      env2.respond ⟨"/crm/v3/objects/" ++ t2 ++ "/batch/read", "POST",
        some (batchReadBody t2
          ((jsSlice0 lim (r :: rs)).map (fun a => getF a "toObjectId")))⟩ = .err st2 b2 →
      fetchEngagementType cid2 lim t2 env2 tr
        = (.ok [], tr ++ [assocCall cid2 t2,
            ⟨"/crm/v3/objects/" ++ t2 ++ "/batch/read", "POST",
             some (batchReadBody t2
               ((jsSlice0 lim (r :: rs)).map (fun a => getF a "toObjectId")))⟩])) := by
  refine ⟨?_, by simp,
    fun env2 tok2 cid2 t2 lim st2 b2 tr ht2 h =>
      fetchEngagementType_assoc_err env2 tok2 cid2 t2 lim st2 b2 tr ht2 h,
    fun env2 tok2 cid2 t2 lim j r rs st2 b2 tr ht2 ha hres hb =>
      fetchEngagementType_batch_err env2 tok2 cid2 t2 lim j r rs st2 b2 tr ht2 ha hres hb⟩
  have e1 := fetchEngagementType_assoc_err env tok cid "calls" 20 st berr [] ht hcalls
  simp only [List.nil_append] at e1
  have e2 := fetchEmails_ok env tok cid tid e0 es [assocCall cid "calls"] ht hassoc hbatch
  have hallEmails : fetchAllEngagements cid 20 ["emails"] env [assocCall cid "calls"]
      = (.ok [("emails", Json.arr ((e0 :: es).map (fun e =>
           Json.obj (optF "id" (getF e "id") ++ optF "properties" (getF e "properties")))))],
         [assocCall cid "calls", assocCall cid "emails",
          ⟨"/crm/v3/objects/emails/batch/read", "POST",
           some (batchReadBody "emails" [some tid])⟩]) := by
    unfold fetchAllEngagements
    rw [bindM_ok _ _ _ _ _ _ e2]
    rfl
  have hall : fetchAllEngagements cid 20 ["calls", "emails"] env []
      = (.ok [("calls", Json.arr []),
          ("emails", Json.arr ((e0 :: es).map (fun e =>
            Json.obj (optF "id" (getF e "id") ++ optF "properties" (getF e "properties")))))],
         [assocCall cid "calls", assocCall cid "emails",
          ⟨"/crm/v3/objects/emails/batch/read", "POST",
           some (batchReadBody "emails" [some tid])⟩]) := by
    unfold fetchAllEngagements
    rw [bindM_ok _ _ _ _ _ _ e1, bindM_ok _ _ _ _ _ _ hallEmails]
    rfl
  calc handleTool "hubspot_get_engagements"
        [("contactId", .str cid), ("types", .arr [.str "calls", .str "emails"])] env []
      = bindM (fetchAllEngagements cid 20 ["calls", "emails"])
          (fun engs => pureM (Json.obj [("contactId", Json.str cid),
            ("engagements", Json.obj engs),
            ("_meta", Json.obj [("typesRequested",
              Json.arr (List.map Json.str ["calls", "emails"]))])])) env [] := rfl
    _ = _ := by rw [bindM_ok _ _ _ _ _ _ hall]; rfl

theorem bindM_err {α β : Type} (x : M α) (f : α → M β) (env : Env)
    (tr tr2 : List HubCall) (e : String) (hx : x env tr = (.error e, tr2)) :
    bindM x f env tr = (.error e, tr2) := by
  unfold bindM; rw [hx]

theorem hubspot_ok (env : Env) (tok path meth : String) (body : Option Json) (j : Json)
    (tr : List HubCall) (ht : env.token = some tok) (hm : (meth == "DELETE") = false)
    (hr : env.respond ⟨path, meth, body⟩ = .ok j) :
    hubspot path meth body env tr = (.ok j, tr ++ [⟨path, meth, body⟩]) := by
  unfold hubspot
  simp only [ht, hr, hm, Bool.false_eq_true, if_false]

theorem hubspot_err (env : Env) (tok path meth : String) (body : Option Json)
    (st : Nat) (b : String) (tr : List HubCall) (ht : env.token = some tok)
    (hr : env.respond ⟨path, meth, body⟩ = .err st b) :
    hubspot path meth body env tr
      = (.error ("HubSpot API " ++ toString st ++ ": " ++ b), tr ++ [⟨path, meth, body⟩]) := by
  unfold hubspot
  simp only [ht, hr]

theorem createDeal_assoc_ok (env : Env) (tok nm cid coid did : String) (r : Json)
    (ht : env.token = some tok) (hcid : ¬ cid = "") (hcoid : ¬ coid = "")
    (hdid : did = jsStringU (getF r "id"))
    (hcreate : env.respond ⟨"/crm/v3/objects/deals", "POST",
        some (.obj [("properties", .obj [("dealname", .str nm)])])⟩ = .ok r)
    (j1 j2 : Json)
    (h1 : env.respond ⟨"/crm/v3/objects/deals/" ++ did ++ "/associations/contacts/"
        ++ cid ++ "/deal_to_contact", "PUT", none⟩ = .ok j1)
    (h2 : env.respond ⟨"/crm/v3/objects/deals/" ++ did ++ "/associations/companies/"
        ++ coid ++ "/deal_to_company", "PUT", none⟩ = .ok j2) :
    handleTool "hubspot_create_deal"
        [("dealname", .str nm), ("contactId", .str cid), ("companyId", .str coid)] env []
      = (.ok (.obj ([("success", .bool true)] ++ optF "dealId" (getF r "id")
          ++ optF "properties" (getF r "properties")
          ++ [("associations", .obj [("contactId", .str cid), ("companyId", .str coid)])])),
         [⟨"/crm/v3/objects/deals", "POST",
           some (.obj [("properties", .obj [("dealname", .str nm)])])⟩,
          ⟨"/crm/v3/objects/deals/" ++ did ++ "/associations/contacts/" ++ cid
            ++ "/deal_to_contact", "PUT", none⟩,
          ⟨"/crm/v3/objects/deals/" ++ did ++ "/associations/companies/" ++ coid
            ++ "/deal_to_company", "PUT", none⟩]) := by
  subst hdid
  rw [show handleTool "hubspot_create_deal"
        [("dealname", .str nm), ("contactId", .str cid), ("companyId", .str coid)]
      = createDealHandler
        [("dealname", .str nm), ("contactId", .str cid), ("companyId", .str coid)]
      from rfl]
  unfold createDealHandler
  have hcreate2 : env.respond ⟨"/crm/v3/objects/deals", "POST",
      some (.obj [("properties", .obj (createDealBag
        [("dealname", .str nm), ("contactId", .str cid), ("companyId", .str coid)]))])⟩
      = .ok r := hcreate
  rw [bindM_ok _ _ _ _ _ _ (hubspot_ok env tok _ "POST" _ r [] ht rfl hcreate2)]
  simp only [List.nil_append]
  have hc1 : truthyO (getA
      [("dealname", Json.str nm), ("contactId", Json.str cid), ("companyId", Json.str coid)]
      "contactId") = true := by
    simp [getA, lookupL, truthyO, truthy, hcid]
  have hc2 : truthyO (getA
      [("dealname", Json.str nm), ("contactId", Json.str cid), ("companyId", Json.str coid)]
      "companyId") = true := by
    simp [getA, lookupL, truthyO, truthy, hcoid]
  simp only [hc1, hc2, if_true]
  simp only [show jsStringU (getA
      [("dealname", Json.str nm), ("contactId", Json.str cid), ("companyId", Json.str coid)]
      "contactId") = cid from rfl,
    show jsStringU (getA
      [("dealname", Json.str nm), ("contactId", Json.str cid), ("companyId", Json.str coid)]
      "companyId") = coid from rfl]
  rw [bindM_ok _ _ _ _ _ _ (bindM_ok _ _ _ _ _ _
        (hubspot_ok env tok _ "PUT" none j1 _ ht rfl h1))]
  rw [bindM_ok _ _ _ _ _ _ (bindM_ok _ _ _ _ _ _
        (hubspot_ok env tok _ "PUT" none j2 _ ht rfl h2))]
  simp only [pureM, List.append_assoc, List.singleton_append]
  have hassocObj : jsOrJ (getA
      [("dealname", Json.str nm), ("contactId", Json.str cid), ("companyId", Json.str coid)]
      "contactId") Json.null = Json.str cid := by
    simp [getA, lookupL, jsOrJ, truthy, hcid]
  have hassocObj2 : jsOrJ (getA
      [("dealname", Json.str nm), ("contactId", Json.str cid), ("companyId", Json.str coid)]
      "companyId") Json.null = Json.str coid := by
    simp [getA, lookupL, jsOrJ, truthy, hcoid]
  simp only [hassocObj, hassocObj2]
  rfl

theorem createDeal_assoc_err (env : Env) (tok nm cid coid did : String) (r : Json)
    (st : Nat) (b : String)
    (ht : env.token = some tok) (hcid : ¬ cid = "")
    (hdid : did = jsStringU (getF r "id"))
    (hcreate : env.respond ⟨"/crm/v3/objects/deals", "POST",
        some (.obj [("properties", .obj [("dealname", .str nm)])])⟩ = .ok r)
    (h1 : env.respond ⟨"/crm/v3/objects/deals/" ++ did ++ "/associations/contacts/"
        ++ cid ++ "/deal_to_contact", "PUT", none⟩ = .err st b) :
    handleTool "hubspot_create_deal"
        [("dealname", .str nm), ("contactId", .str cid), ("companyId", .str coid)] env []
      = (.error ("HubSpot API " ++ toString st ++ ": " ++ b),
         [⟨"/crm/v3/objects/deals", "POST",
           some (.obj [("properties", .obj [("dealname", .str nm)])])⟩,
          ⟨"/crm/v3/objects/deals/" ++ did ++ "/associations/contacts/" ++ cid
            ++ "/deal_to_contact", "PUT", none⟩]) := by
  subst hdid
  rw [show handleTool "hubspot_create_deal"
        [("dealname", .str nm), ("contactId", .str cid), ("companyId", .str coid)]
      = createDealHandler
        [("dealname", .str nm), ("contactId", .str cid), ("companyId", .str coid)]
      from rfl]
  unfold createDealHandler
  have hcreate2 : env.respond ⟨"/crm/v3/objects/deals", "POST",
      some (.obj [("properties", .obj (createDealBag
        [("dealname", .str nm), ("contactId", .str cid), ("companyId", .str coid)]))])⟩
      = .ok r := hcreate
  rw [bindM_ok _ _ _ _ _ _ (hubspot_ok env tok _ "POST" _ r [] ht rfl hcreate2)]
  simp only [List.nil_append]
  have hc1 : truthyO (getA
      [("dealname", Json.str nm), ("contactId", Json.str cid), ("companyId", Json.str coid)]
      "contactId") = true := by
    simp [getA, lookupL, truthyO, truthy, hcid]
  simp only [hc1, if_true]
  simp only [show jsStringU (getA
      [("dealname", Json.str nm), ("contactId", Json.str cid), ("companyId", Json.str coid)]
      "contactId") = cid from rfl]
  rw [bindM_err _ _ _ _ _ _ (bindM_err _ _ _ _ _ _
        (hubspot_err env tok _ "PUT" none st b _ ht h1))]
  rfl

theorem logEmail_assoc_ok (env : Env) (tok cid su bo ts eid : String) (r j1 : Json)
    (ht : env.token = some tok) (hts : ¬ ts = "")
    (heid : eid = jsStringU (getF r "id"))
    (hcreate : env.respond ⟨"/crm/v3/objects/emails", "POST",
        some (.obj [("properties", .obj
          [("hs_email_subject", .str su), ("hs_email_text", .str bo),
           ("hs_email_direction", .str "EMAIL"), ("hs_timestamp", .str ts)])])⟩ = .ok r)
    (h1 : env.respond ⟨"/crm/v3/objects/emails/" ++ eid ++ "/associations/contacts/"
        ++ cid ++ "/email_to_contact", "PUT", none⟩ = .ok j1) :
    handleTool "hubspot_log_email"
        [("contactId", .str cid), ("subject", .str su), ("body", .str bo),
         ("timestamp", .str ts)] env []
      = (.ok (.obj ([("success", .bool true)] ++ optF "emailId" (getF r "id")
          ++ [("contactId", .str cid)] ++ optF "properties" (getF r "properties"))),
         [⟨"/crm/v3/objects/emails", "POST",
           some (.obj [("properties", .obj
             [("hs_email_subject", .str su), ("hs_email_text", .str bo),
              ("hs_email_direction", .str "EMAIL"), ("hs_timestamp", .str ts)])])⟩,
          ⟨"/crm/v3/objects/emails/" ++ eid ++ "/associations/contacts/" ++ cid
            ++ "/email_to_contact", "PUT", none⟩]) := by
  subst heid
  rw [show handleTool "hubspot_log_email"
        [("contactId", .str cid), ("subject", .str su), ("body", .str bo),
         ("timestamp", .str ts)]
      = logEmailHandler
        [("contactId", .str cid), ("subject", .str su), ("body", .str bo),
         ("timestamp", .str ts)] from rfl]
  unfold logEmailHandler
  have htsb : truthyO (getA
      [("contactId", Json.str cid), ("subject", Json.str su), ("body", Json.str bo),
       ("timestamp", Json.str ts)] "timestamp") = true := by
    simp [getA, lookupL, truthyO, truthy, hts]
  simp only [htsb, if_true]
  rw [bindM_ok _ _ _ _ _ _ (show (pureM (jsStringU (getA
      [("contactId", Json.str cid), ("subject", Json.str su), ("body", Json.str bo),
       ("timestamp", Json.str ts)] "timestamp")) : M String) env []
      = (.ok ts, []) from rfl)]
  have hcreate2 : env.respond ⟨"/crm/v3/objects/emails", "POST",
      some (.obj [("properties", .obj
        [("hs_email_subject", .str (jsStringU (getA
            [("contactId", Json.str cid), ("subject", Json.str su), ("body", Json.str bo),
             ("timestamp", Json.str ts)] "subject"))),
         ("hs_email_text", .str (jsStringU (getA
            [("contactId", Json.str cid), ("subject", Json.str su), ("body", Json.str bo),
             ("timestamp", Json.str ts)] "body"))),
         ("hs_email_direction", .str (jsString (jsOrJ (getA
            [("contactId", Json.str cid), ("subject", Json.str su), ("body", Json.str bo),
             ("timestamp", Json.str ts)] "direction") (.str "EMAIL")))),
         ("hs_timestamp", .str ts)])])⟩ = .ok r := hcreate
  rw [bindM_ok _ _ _ _ _ _ (hubspot_ok env tok _ "POST" _ r [] ht rfl hcreate2)]
  simp only [List.nil_append]
  simp only [show jsStringU (getA
      [("contactId", Json.str cid), ("subject", Json.str su), ("body", Json.str bo),
       ("timestamp", Json.str ts)] "contactId") = cid from rfl]
  rw [bindM_ok _ _ _ _ _ _ (hubspot_ok env tok _ "PUT" none j1 _ ht rfl h1)]
  rfl

theorem logEmail_assoc_err (env : Env) (tok cid su bo ts eid : String) (r : Json)
    (st : Nat) (b : String)
    (ht : env.token = some tok) (hts : ¬ ts = "")
    (heid : eid = jsStringU (getF r "id"))
    (hcreate : env.respond ⟨"/crm/v3/objects/emails", "POST",
        some (.obj [("properties", .obj
          [("hs_email_subject", .str su), ("hs_email_text", .str bo),
           ("hs_email_direction", .str "EMAIL"), ("hs_timestamp", .str ts)])])⟩ = .ok r)
    (h1 : env.respond ⟨"/crm/v3/objects/emails/" ++ eid ++ "/associations/contacts/"
        ++ cid ++ "/email_to_contact", "PUT", none⟩ = .err st b) :
    handleTool "hubspot_log_email"
        [("contactId", .str cid), ("subject", .str su), ("body", .str bo),
         ("timestamp", .str ts)] env []
      = (.error ("HubSpot API " ++ toString st ++ ": " ++ b),
         [⟨"/crm/v3/objects/emails", "POST",
           some (.obj [("properties", .obj
             [("hs_email_subject", .str su), ("hs_email_text", .str bo),
              ("hs_email_direction", .str "EMAIL"), ("hs_timestamp", .str ts)])])⟩,
          ⟨"/crm/v3/objects/emails/" ++ eid ++ "/associations/contacts/" ++ cid
            ++ "/email_to_contact", "PUT", none⟩]) := by
  subst heid
  rw [show handleTool "hubspot_log_email"
        [("contactId", .str cid), ("subject", .str su), ("body", .str bo),
         ("timestamp", .str ts)]
      = logEmailHandler
        [("contactId", .str cid), ("subject", .str su), ("body", .str bo),
         ("timestamp", .str ts)] from rfl]
  unfold logEmailHandler
  have htsb : truthyO (getA
      [("contactId", Json.str cid), ("subject", Json.str su), ("body", Json.str bo),
       ("timestamp", Json.str ts)] "timestamp") = true := by
    simp [getA, lookupL, truthyO, truthy, hts]
  simp only [htsb, if_true]
  rw [bindM_ok _ _ _ _ _ _ (show (pureM (jsStringU (getA
      [("contactId", Json.str cid), ("subject", Json.str su), ("body", Json.str bo),
       ("timestamp", Json.str ts)] "timestamp")) : M String) env []
      = (.ok ts, []) from rfl)]
  have hcreate2 : env.respond ⟨"/crm/v3/objects/emails", "POST",
      some (.obj [("properties", .obj
        [("hs_email_subject", .str (jsStringU (getA
            [("contactId", Json.str cid), ("subject", Json.str su), ("body", Json.str bo),
             ("timestamp", Json.str ts)] "subject"))),
         ("hs_email_text", .str (jsStringU (getA
            [("contactId", Json.str cid), ("subject", Json.str su), ("body", Json.str bo),
             ("timestamp", Json.str ts)] "body"))),
         ("hs_email_direction", .str (jsString (jsOrJ (getA
            [("contactId", Json.str cid), ("subject", Json.str su), ("body", Json.str bo),
             ("timestamp", Json.str ts)] "direction") (.str "EMAIL")))),
         ("hs_timestamp", .str ts)])])⟩ = .ok r := hcreate
  rw [bindM_ok _ _ _ _ _ _ (hubspot_ok env tok _ "POST" _ r [] ht rfl hcreate2)]
  simp only [List.nil_append]
  simp only [show jsStringU (getA
      [("contactId", Json.str cid), ("subject", Json.str su), ("body", Json.str bo),
       ("timestamp", Json.str ts)] "contactId") = cid from rfl]
  rw [bindM_err _ _ _ _ _ _ (hubspot_err env tok _ "PUT" none st b _ ht h1)]
  rfl

theorem bindM_pure {α β : Type} (a : α) (f : α → M β) (env : Env) (tr : List HubCall) :
    bindM (pureM a) f env tr = f a env tr := rfl

theorem createDeal_company_assoc_err (env : Env) (tok nm cid coid did : String)
    (r j1 : Json) (st : Nat) (b : String)
    (ht : env.token = some tok) (hcid : ¬ cid = "") (hcoid : ¬ coid = "")
    (hdid : did = jsStringU (getF r "id"))
    (hcreate : env.respond ⟨"/crm/v3/objects/deals", "POST",
        some (.obj [("properties", .obj [("dealname", .str nm)])])⟩ = .ok r)
    (h1 : env.respond ⟨"/crm/v3/objects/deals/" ++ did ++ "/associations/contacts/"
        ++ cid ++ "/deal_to_contact", "PUT", none⟩ = .ok j1)
    (h2 : env.respond ⟨"/crm/v3/objects/deals/" ++ did ++ "/associations/companies/"
        ++ coid ++ "/deal_to_company", "PUT", none⟩ = .err st b) :
    handleTool "hubspot_create_deal"
        [("dealname", .str nm), ("contactId", .str cid), ("companyId", .str coid)] env []
      = (.error ("HubSpot API " ++ toString st ++ ": " ++ b),
         [⟨"/crm/v3/objects/deals", "POST",
           some (.obj [("properties", .obj [("dealname", .str nm)])])⟩,
          ⟨"/crm/v3/objects/deals/" ++ did ++ "/associations/contacts/" ++ cid
            ++ "/deal_to_contact", "PUT", none⟩,
          ⟨"/crm/v3/objects/deals/" ++ did ++ "/associations/companies/" ++ coid
            ++ "/deal_to_company", "PUT", none⟩]) := by
  subst hdid
  rw [show handleTool "hubspot_create_deal"
        [("dealname", .str nm), ("contactId", .str cid), ("companyId", .str coid)]
      = createDealHandler
        [("dealname", .str nm), ("contactId", .str cid), ("companyId", .str coid)]
      from rfl]
  unfold createDealHandler
  have hcreate2 : env.respond ⟨"/crm/v3/objects/deals", "POST",
      some (.obj [("properties", .obj (createDealBag
        [("dealname", .str nm), ("contactId", .str cid), ("companyId", .str coid)]))])⟩
      = .ok r := hcreate
  rw [bindM_ok _ _ _ _ _ _ (hubspot_ok env tok _ "POST" _ r [] ht rfl hcreate2)]
  simp only [List.nil_append]
  have hc1 : truthyO (getA
      [("dealname", Json.str nm), ("contactId", Json.str cid), ("companyId", Json.str coid)]
      "contactId") = true := by
    simp [getA, lookupL, truthyO, truthy, hcid]
  have hc2 : truthyO (getA
      [("dealname", Json.str nm), ("contactId", Json.str cid), ("companyId", Json.str coid)]
      "companyId") = true := by
    simp [getA, lookupL, truthyO, truthy, hcoid]
  simp only [hc1, hc2, if_true]
  simp only [show jsStringU (getA
      [("dealname", Json.str nm), ("contactId", Json.str cid), ("companyId", Json.str coid)]
      "contactId") = cid from rfl,
    show jsStringU (getA
      [("dealname", Json.str nm), ("contactId", Json.str cid), ("companyId", Json.str coid)]
      "companyId") = coid from rfl]
  rw [bindM_ok _ _ _ _ _ _ (bindM_ok _ _ _ _ _ _
        (hubspot_ok env tok _ "PUT" none j1 _ ht rfl h1))]
  rw [bindM_err _ _ _ _ _ _ (bindM_err _ _ _ _ _ _
        (hubspot_err env tok _ "PUT" none st b _ ht h2))]
  rfl

theorem createDeal_contact_only_ok (env : Env) (tok nm cid did : String) (r j1 : Json)
    (ht : env.token = some tok) (hcid : ¬ cid = "")
    (hdid : did = jsStringU (getF r "id"))
    (hcreate : env.respond ⟨"/crm/v3/objects/deals", "POST",
        some (.obj [("properties", .obj [("dealname", .str nm)])])⟩ = .ok r)
    (h1 : env.respond ⟨"/crm/v3/objects/deals/" ++ did ++ "/associations/contacts/"
        ++ cid ++ "/deal_to_contact", "PUT", none⟩ = .ok j1) :
    handleTool "hubspot_create_deal"
        [("dealname", .str nm), ("contactId", .str cid)] env []
      = (.ok (.obj ([("success", .bool true)] ++ optF "dealId" (getF r "id")
          ++ optF "properties" (getF r "properties")
          ++ [("associations", .obj [("contactId", .str cid),
                                     ("companyId", Json.null)])])),
         [⟨"/crm/v3/objects/deals", "POST",
           some (.obj [("properties", .obj [("dealname", .str nm)])])⟩,
          ⟨"/crm/v3/objects/deals/" ++ did ++ "/associations/contacts/" ++ cid
            ++ "/deal_to_contact", "PUT", none⟩]) := by
  subst hdid
  rw [show handleTool "hubspot_create_deal"
        [("dealname", .str nm), ("contactId", .str cid)]
      = createDealHandler [("dealname", .str nm), ("contactId", .str cid)] from rfl]
  unfold createDealHandler
  have hcreate2 : env.respond ⟨"/crm/v3/objects/deals", "POST",
      some (.obj [("properties", .obj (createDealBag
        [("dealname", .str nm), ("contactId", .str cid)]))])⟩ = .ok r := hcreate
  rw [bindM_ok _ _ _ _ _ _ (hubspot_ok env tok _ "POST" _ r [] ht rfl hcreate2)]
  simp only [List.nil_append]
  have hc1 : truthyO (getA [("dealname", Json.str nm), ("contactId", Json.str cid)]
      "contactId") = true := by
    simp [getA, lookupL, truthyO, truthy, hcid]
  simp only [hc1, if_true,
    show truthyO (getA [("dealname", Json.str nm), ("contactId", Json.str cid)]
      "companyId") = false from rfl,
    Bool.false_eq_true, if_false]
  simp only [show jsStringU (getA [("dealname", Json.str nm), ("contactId", Json.str cid)]
      "contactId") = cid from rfl]
  rw [bindM_ok _ _ _ _ _ _ (bindM_ok _ _ _ _ _ _
        (hubspot_ok env tok _ "PUT" none j1 _ ht rfl h1))]
  rw [bindM_pure]
  have hassocObj : jsOrJ (getA [("dealname", Json.str nm), ("contactId", Json.str cid)]
      "contactId") Json.null = Json.str cid := by
    simp [getA, lookupL, jsOrJ, truthy, hcid]
  simp only [hassocObj]
  rfl

theorem createDeal_company_only_ok (env : Env) (tok nm coid did : String) (r j2 : Json)
    (ht : env.token = some tok) (hcoid : ¬ coid = "")
    (hdid : did = jsStringU (getF r "id"))
    (hcreate : env.respond ⟨"/crm/v3/objects/deals", "POST",
        some (.obj [("properties", .obj [("dealname", .str nm)])])⟩ = .ok r)
    (h2 : env.respond ⟨"/crm/v3/objects/deals/" ++ did ++ "/associations/companies/"
        ++ coid ++ "/deal_to_company", "PUT", none⟩ = .ok j2) :
    handleTool "hubspot_create_deal"
        [("dealname", .str nm), ("companyId", .str coid)] env []
      = (.ok (.obj ([("success", .bool true)] ++ optF "dealId" (getF r "id")
          ++ optF "properties" (getF r "properties")
          ++ [("associations", .obj [("contactId", Json.null),
                                     ("companyId", .str coid)])])),
         [⟨"/crm/v3/objects/deals", "POST",
           some (.obj [("properties", .obj [("dealname", .str nm)])])⟩,
          ⟨"/crm/v3/objects/deals/" ++ did ++ "/associations/companies/" ++ coid
            ++ "/deal_to_company", "PUT", none⟩]) := by
  subst hdid
  rw [show handleTool "hubspot_create_deal"
        [("dealname", .str nm), ("companyId", .str coid)]
      = createDealHandler [("dealname", .str nm), ("companyId", .str coid)] from rfl]
  unfold createDealHandler
  have hcreate2 : env.respond ⟨"/crm/v3/objects/deals", "POST",
      some (.obj [("properties", .obj (createDealBag
        [("dealname", .str nm), ("companyId", .str coid)]))])⟩ = .ok r := hcreate
  rw [bindM_ok _ _ _ _ _ _ (hubspot_ok env tok _ "POST" _ r [] ht rfl hcreate2)]
  simp only [List.nil_append]
  have hc2 : truthyO (getA [("dealname", Json.str nm), ("companyId", Json.str coid)]
      "companyId") = true := by
    simp [getA, lookupL, truthyO, truthy, hcoid]
  simp only [hc2, if_true,
    show truthyO (getA [("dealname", Json.str nm), ("companyId", Json.str coid)]
      "contactId") = false from rfl,
    Bool.false_eq_true, if_false]
  simp only [show jsStringU (getA [("dealname", Json.str nm), ("companyId", Json.str coid)]
      "companyId") = coid from rfl]
  rw [bindM_pure]
  rw [bindM_ok _ _ _ _ _ _ (bindM_ok _ _ _ _ _ _
        (hubspot_ok env tok _ "PUT" none j2 _ ht rfl h2))]
  have hassocObj : jsOrJ (getA [("dealname", Json.str nm), ("companyId", Json.str coid)]
      "companyId") Json.null = Json.str coid := by
    simp [getA, lookupL, jsOrJ, truthy, hcoid]
  simp only [hassocObj]
  rfl

theorem createNote_assoc_ok (env : Env) (tok cid bo ts nid : String) (r j1 : Json)
    (ht : env.token = some tok) (hts : ¬ ts = "")
    (hnid : nid = jsStringU (getF r "id"))
    (hcreate : env.respond ⟨"/crm/v3/objects/notes", "POST",
        some (.obj [("properties", .obj
          [("hs_note_body", .str bo), ("hs_timestamp", .str ts)])])⟩ = .ok r)
    (h1 : env.respond ⟨"/crm/v3/objects/notes/" ++ nid ++ "/associations/contacts/"
        ++ cid ++ "/note_to_contact", "PUT", none⟩ = .ok j1) :
    handleTool "hubspot_create_note"
        [("contactId", .str cid), ("body", .str bo), ("timestamp", .str ts)] env []
      = (.ok (.obj ([("success", .bool true)] ++ optF "noteId" (getF r "id")
          ++ [("contactId", .str cid)] ++ optF "properties" (getF r "properties"))),
         [⟨"/crm/v3/objects/notes", "POST",
           some (.obj [("properties", .obj
             [("hs_note_body", .str bo), ("hs_timestamp", .str ts)])])⟩,
          ⟨"/crm/v3/objects/notes/" ++ nid ++ "/associations/contacts/" ++ cid
            ++ "/note_to_contact", "PUT", none⟩]) := by
  subst hnid
  rw [show handleTool "hubspot_create_note"
        [("contactId", .str cid), ("body", .str bo), ("timestamp", .str ts)]
      = createNoteHandler
        [("contactId", .str cid), ("body", .str bo), ("timestamp", .str ts)] from rfl]
  unfold createNoteHandler
  have htsb : truthyO (getA
      [("contactId", Json.str cid), ("body", Json.str bo), ("timestamp", Json.str ts)]
      "timestamp") = true := by
    simp [getA, lookupL, truthyO, truthy, hts]
  simp only [htsb, if_true]
  rw [bindM_pure]
  have hcreate2 : env.respond ⟨"/crm/v3/objects/notes", "POST",
      some (.obj [("properties", .obj
        [("hs_note_body", .str (jsStringU (getA
            [("contactId", Json.str cid), ("body", Json.str bo),
             ("timestamp", Json.str ts)] "body"))),
         ("hs_timestamp", .str (jsStringU (getA
            [("contactId", Json.str cid), ("body", Json.str bo),
             ("timestamp", Json.str ts)] "timestamp")))])])⟩ = .ok r := hcreate
  rw [bindM_ok _ _ _ _ _ _ (hubspot_ok env tok _ "POST" _ r [] ht rfl hcreate2)]
  simp only [List.nil_append]
  simp only [show jsStringU (getA
      [("contactId", Json.str cid), ("body", Json.str bo), ("timestamp", Json.str ts)]
      "contactId") = cid from rfl]
  rw [bindM_ok _ _ _ _ _ _ (hubspot_ok env tok _ "PUT" none j1 _ ht rfl h1)]
  rfl

theorem createNote_assoc_err (env : Env) (tok cid bo ts nid : String) (r : Json)
    (st : Nat) (b : String)
    (ht : env.token = some tok) (hts : ¬ ts = "")
    (hnid : nid = jsStringU (getF r "id"))
    (hcreate : env.respond ⟨"/crm/v3/objects/notes", "POST",
        some (.obj [("properties", .obj
          [("hs_note_body", .str bo), ("hs_timestamp", .str ts)])])⟩ = .ok r)
    (h1 : env.respond ⟨"/crm/v3/objects/notes/" ++ nid ++ "/associations/contacts/"
        ++ cid ++ "/note_to_contact", "PUT", none⟩ = .err st b) :
    handleTool "hubspot_create_note"
        [("contactId", .str cid), ("body", .str bo), ("timestamp", .str ts)] env []
      = (.error ("HubSpot API " ++ toString st ++ ": " ++ b),
         [⟨"/crm/v3/objects/notes", "POST",
           some (.obj [("properties", .obj
             [("hs_note_body", .str bo), ("hs_timestamp", .str ts)])])⟩,
          ⟨"/crm/v3/objects/notes/" ++ nid ++ "/associations/contacts/" ++ cid
            ++ "/note_to_contact", "PUT", none⟩]) := by
  subst hnid
  rw [show handleTool "hubspot_create_note"
        [("contactId", .str cid), ("body", .str bo), ("timestamp", .str ts)]
      = createNoteHandler
        [("contactId", .str cid), ("body", .str bo), ("timestamp", .str ts)] from rfl]
  unfold createNoteHandler
  have htsb : truthyO (getA
      [("contactId", Json.str cid), ("body", Json.str bo), ("timestamp", Json.str ts)]
      "timestamp") = true := by
    simp [getA, lookupL, truthyO, truthy, hts]
  simp only [htsb, if_true]
  rw [bindM_pure]
  have hcreate2 : env.respond ⟨"/crm/v3/objects/notes", "POST",
      some (.obj [("properties", .obj
        [("hs_note_body", .str (jsStringU (getA
            [("contactId", Json.str cid), ("body", Json.str bo),
             ("timestamp", Json.str ts)] "body"))),
         ("hs_timestamp", .str (jsStringU (getA
            [("contactId", Json.str cid), ("body", Json.str bo),
             ("timestamp", Json.str ts)] "timestamp")))])])⟩ = .ok r := hcreate
  rw [bindM_ok _ _ _ _ _ _ (hubspot_ok env tok _ "POST" _ r [] ht rfl hcreate2)]
  simp only [List.nil_append]
  simp only [show jsStringU (getA
      [("contactId", Json.str cid), ("body", Json.str bo), ("timestamp", Json.str ts)]
      "contactId") = cid from rfl]
  rw [bindM_err _ _ _ _ _ _ (hubspot_err env tok _ "PUT" none st b _ ht h1)]
  rfl

theorem createTask_assoc_ok (env : Env) (tok cid su dd tid : String) (r j1 : Json)
    (ht : env.token = some tok) (hdd : ¬ dd = "")
    (htid : tid = jsStringU (getF r "id"))
    (hcreate : env.respond ⟨"/crm/v3/objects/tasks", "POST",
        some (.obj [("properties", .obj
          [("hs_task_subject", .str su), ("hs_timestamp", .str dd),
           ("hs_task_status", .str "NOT_STARTED")])])⟩ = .ok r)
    (h1 : env.respond ⟨"/crm/v3/objects/tasks/" ++ tid ++ "/associations/contacts/"
        ++ cid ++ "/task_to_contact", "PUT", none⟩ = .ok j1) :
    handleTool "hubspot_create_task"
        [("contactId", .str cid), ("subject", .str su), ("dueDate", .str dd)] env []
      = (.ok (.obj ([("success", .bool true)] ++ optF "taskId" (getF r "id")
          ++ [("contactId", .str cid)] ++ optF "properties" (getF r "properties"))),
         [⟨"/crm/v3/objects/tasks", "POST",
           some (.obj [("properties", .obj
             [("hs_task_subject", .str su), ("hs_timestamp", .str dd),
              ("hs_task_status", .str "NOT_STARTED")])])⟩,
          ⟨"/crm/v3/objects/tasks/" ++ tid ++ "/associations/contacts/" ++ cid
            ++ "/task_to_contact", "PUT", none⟩]) := by
  subst htid
  rw [show handleTool "hubspot_create_task"
        [("contactId", .str cid), ("subject", .str su), ("dueDate", .str dd)]
      = createTaskHandler
        [("contactId", .str cid), ("subject", .str su), ("dueDate", .str dd)] from rfl]
  unfold createTaskHandler
  have hddb : truthyO (getA
      [("contactId", Json.str cid), ("subject", Json.str su), ("dueDate", Json.str dd)]
      "dueDate") = true := by
    simp [getA, lookupL, truthyO, truthy, hdd]
  simp only [hddb, if_true]
  rw [bindM_pure]
  have hcreate2 : env.respond ⟨"/crm/v3/objects/tasks", "POST",
      some (.obj [("properties", .obj
        ([("hs_task_subject", .str (jsStringU (getA
             [("contactId", Json.str cid), ("subject", Json.str su),
              ("dueDate", Json.str dd)] "subject"))),
          ("hs_timestamp", .str (jsStringU (getA
             [("contactId", Json.str cid), ("subject", Json.str su),
              ("dueDate", Json.str dd)] "dueDate"))),
          ("hs_task_status", .str "NOT_STARTED")]
         ++ (if truthyO (getA
               [("contactId", Json.str cid), ("subject", Json.str su),
                ("dueDate", Json.str dd)] "body") then
               [("hs_task_body", Json.str (jsStringU (getA
                  [("contactId", Json.str cid), ("subject", Json.str su),
                   ("dueDate", Json.str dd)] "body")))] else [])
         ++ (if truthyO (getA
               [("contactId", Json.str cid), ("subject", Json.str su),
                ("dueDate", Json.str dd)] "ownerId") then
               [("hubspot_owner_id", Json.str (jsStringU (getA
                  [("contactId", Json.str cid), ("subject", Json.str su),
                   ("dueDate", Json.str dd)] "ownerId")))] else [])
         ++ (if truthyO (getA
               [("contactId", Json.str cid), ("subject", Json.str su),
                ("dueDate", Json.str dd)] "priority") then
               [("hs_task_priority", Json.str (jsStringU (getA
                  [("contactId", Json.str cid), ("subject", Json.str su),
                   ("dueDate", Json.str dd)] "priority")))] else [])))])⟩
      = .ok r := hcreate
  rw [bindM_ok _ _ _ _ _ _ (hubspot_ok env tok _ "POST" _ r [] ht rfl hcreate2)]
  simp only [List.nil_append]
  simp only [show jsStringU (getA
      [("contactId", Json.str cid), ("subject", Json.str su), ("dueDate", Json.str dd)]
      "contactId") = cid from rfl]
  rw [bindM_ok _ _ _ _ _ _ (hubspot_ok env tok _ "PUT" none j1 _ ht rfl h1)]
  rfl

theorem createTask_assoc_err (env : Env) (tok cid su dd tid : String) (r : Json)
    (st : Nat) (b : String)
    (ht : env.token = some tok) (hdd : ¬ dd = "")
    (htid : tid = jsStringU (getF r "id"))
    (hcreate : env.respond ⟨"/crm/v3/objects/tasks", "POST",
        some (.obj [("properties", .obj
          [("hs_task_subject", .str su), ("hs_timestamp", .str dd),
           ("hs_task_status", .str "NOT_STARTED")])])⟩ = .ok r)
    (h1 : env.respond ⟨"/crm/v3/objects/tasks/" ++ tid ++ "/associations/contacts/"
        ++ cid ++ "/task_to_contact", "PUT", none⟩ = .err st b) :
    handleTool "hubspot_create_task"
        [("contactId", .str cid), ("subject", .str su), ("dueDate", .str dd)] env []
      = (.error ("HubSpot API " ++ toString st ++ ": " ++ b),
         [⟨"/crm/v3/objects/tasks", "POST",
           some (.obj [("properties", .obj
             [("hs_task_subject", .str su), ("hs_timestamp", .str dd),
              ("hs_task_status", .str "NOT_STARTED")])])⟩,
          ⟨"/crm/v3/objects/tasks/" ++ tid ++ "/associations/contacts/" ++ cid
            ++ "/task_to_contact", "PUT", none⟩]) := by
  subst htid
  rw [show handleTool "hubspot_create_task"
        [("contactId", .str cid), ("subject", .str su), ("dueDate", .str dd)]
      = createTaskHandler
        [("contactId", .str cid), ("subject", .str su), ("dueDate", .str dd)] from rfl]
  unfold createTaskHandler
  have hddb : truthyO (getA
      [("contactId", Json.str cid), ("subject", Json.str su), ("dueDate", Json.str dd)]
      "dueDate") = true := by
    simp [getA, lookupL, truthyO, truthy, hdd]
  simp only [hddb, if_true]
  rw [bindM_pure]
  have hcreate2 : env.respond ⟨"/crm/v3/objects/tasks", "POST",
      some (.obj [("properties", .obj
        ([("hs_task_subject", .str (jsStringU (getA
             [("contactId", Json.str cid), ("subject", Json.str su),
              ("dueDate", Json.str dd)] "subject"))),
          ("hs_timestamp", .str (jsStringU (getA
             [("contactId", Json.str cid), ("subject", Json.str su),
              ("dueDate", Json.str dd)] "dueDate"))),
          ("hs_task_status", .str "NOT_STARTED")]
         ++ (if truthyO (getA
               [("contactId", Json.str cid), ("subject", Json.str su),
                ("dueDate", Json.str dd)] "body") then
               [("hs_task_body", Json.str (jsStringU (getA
                  [("contactId", Json.str cid), ("subject", Json.str su),
                   ("dueDate", Json.str dd)] "body")))] else [])
         ++ (if truthyO (getA
               [("contactId", Json.str cid), ("subject", Json.str su),
                ("dueDate", Json.str dd)] "ownerId") then
               [("hubspot_owner_id", Json.str (jsStringU (getA
                  [("contactId", Json.str cid), ("subject", Json.str su),
                   ("dueDate", Json.str dd)] "ownerId")))] else [])
         ++ (if truthyO (getA
               [("contactId", Json.str cid), ("subject", Json.str su),
                ("dueDate", Json.str dd)] "priority") then
               [("hs_task_priority", Json.str (jsStringU (getA
                  [("contactId", Json.str cid), ("subject", Json.str su),
                   ("dueDate", Json.str dd)] "priority")))] else [])))])⟩
      = .ok r := hcreate
  rw [bindM_ok _ _ _ _ _ _ (hubspot_ok env tok _ "POST" _ r [] ht rfl hcreate2)]
  simp only [List.nil_append]
  simp only [show jsStringU (getA
      [("contactId", Json.str cid), ("subject", Json.str su), ("dueDate", Json.str dd)]
      "contactId") = cid from rfl]
  rw [bindM_err _ _ _ _ _ _ (hubspot_err env tok _ "PUT" none st b _ ht h1)]
  rfl

theorem lookupL_single_ne (k k2 : String) (v : Json) (h : ¬ k = k2) :
    lookupL [(k, v)] k2 = none := by
  simp [lookupL, h]

theorem lookupL_ite_optF_ne (c : Prop) [Decidable c] (k k2 : String) (v : Option Json)
    (h : ¬ k = k2) :
    lookupL (if c then optF k v else []) k2 = none := by
  by_cases hc : c
  · rw [if_pos hc]
    cases v with
    | none => rfl
    | some w => simp [optF, lookupL, h]
  · rw [if_neg hc]
    rfl

theorem lookupL_arrSeg_ne (a : Option Json) (k k2 : String) (h : ¬ k = k2) :
    lookupL (arrSeg a k) k2 = none := by
  unfold arrSeg
  cases a with
  | none => rfl
  | some v => cases v <;> simp [lookupL, h]

theorem arrSeg_eq_nil (a : Option Json) (k : String) (h : isArrO a = false) :
    arrSeg a k = ([] : JsObj) := by
  unfold arrSeg
  cases a with
  | none => rfl
  | some v =>
    cases v <;> first
    | rfl
    | (exfalso
       rw [show isArrO (some (Json.arr _)) = true from rfl] at h
       exact absurd h (by simp))

theorem mem_ite_singleton {c : Prop} [Decidable c] (f a : Json) :
    f ∈ (if c then [a] else ([] : List Json)) ↔ (c ∧ f = a) := by
  by_cases hc : c <;> simp [hc]

theorem getF_obj (fs : JsObj) (k : String) : getF (.obj fs) k = lookupL fs k := rfl

theorem contactsSearchSpec (args : JsObj) :
    (∀ ps, getA args "properties" = some (.arr ps) →
      getF (searchContactsBody args) "properties" = some (.arr ps))
  ∧ (isArrO (getA args "properties") = false →
      getF (searchContactsBody args) "properties" = none)
  ∧ (∀ ss, getA args "sorts" = some (.arr ss) →
      getF (searchContactsBody args) "sorts" = some (.arr ss))
  ∧ (isArrO (getA args "sorts") = false →
      getF (searchContactsBody args) "sorts" = none)
  ∧ (∀ fg, getA args "filterGroups" = some fg → truthy fg = true →
      getF (searchContactsBody args) "filterGroups" = some fg)
  ∧ (truthyO (getA args "filterGroups") = false →
      getF (searchContactsBody args) "filterGroups" = none)
  ∧ searchCompaniesBody args = searchContactsBody args := by
  refine ⟨?_, ?_, ?_, ?_, ?_, ?_, rfl⟩
  · intro ps hp
    unfold searchContactsBody
    rw [getF_obj]
    rw [List.append_assoc, List.append_assoc, List.append_assoc,
      lookupL_append_none _ _ _ (lookupL_single_ne _ _ _ (by decide)),
      lookupL_append_none _ _ _ (lookupL_ite_optF_ne _ _ _ _ (by decide)),
      lookupL_append_none _ _ _ (lookupL_ite_optF_ne _ _ _ _ (by decide))]
    simp only [hp]
    simp [lookupL]
  · intro h
    unfold searchContactsBody
    rw [getF_obj]
    rw [List.append_assoc, List.append_assoc, List.append_assoc,
      lookupL_append_none _ _ _ (lookupL_single_ne _ _ _ (by decide)),
      lookupL_append_none _ _ _ (lookupL_ite_optF_ne _ _ _ _ (by decide)),
      lookupL_append_none _ _ _ (lookupL_ite_optF_ne _ _ _ _ (by decide)),
      arrSeg_eq_nil _ _ h, List.nil_append]
    exact lookupL_arrSeg_ne _ _ _ (by decide)
  · intro ss hs
    unfold searchContactsBody
    rw [getF_obj]
    rw [List.append_assoc, List.append_assoc, List.append_assoc,
      lookupL_append_none _ _ _ (lookupL_single_ne _ _ _ (by decide)),
      lookupL_append_none _ _ _ (lookupL_ite_optF_ne _ _ _ _ (by decide)),
      lookupL_append_none _ _ _ (lookupL_ite_optF_ne _ _ _ _ (by decide)),
      lookupL_append_none _ _ _ (lookupL_arrSeg_ne _ _ _ (by decide))]
    simp only [hs]
    simp [lookupL]
  · intro h
    unfold searchContactsBody
    rw [getF_obj]
    rw [List.append_assoc, List.append_assoc, List.append_assoc,
      lookupL_append_none _ _ _ (lookupL_single_ne _ _ _ (by decide)),
      lookupL_append_none _ _ _ (lookupL_ite_optF_ne _ _ _ _ (by decide)),
      lookupL_append_none _ _ _ (lookupL_ite_optF_ne _ _ _ _ (by decide)),
      lookupL_append_none _ _ _ (lookupL_arrSeg_ne _ _ _ (by decide)),
      arrSeg_eq_nil _ _ h]
    rfl
  · intro fg hfg htr
    unfold searchContactsBody
    rw [getF_obj]
    rw [List.append_assoc, List.append_assoc, List.append_assoc,
      lookupL_append_none _ _ _ (lookupL_single_ne _ _ _ (by decide)),
      lookupL_append_none _ _ _ (lookupL_ite_optF_ne _ _ _ _ (by decide))]
    have hc : truthyO (getA args "filterGroups") = true := by
      rw [hfg]; exact htr
    rw [if_pos hc, hfg]
    simp [optF, lookupL]
  · intro h
    unfold searchContactsBody
    rw [getF_obj]
    rw [List.append_assoc, List.append_assoc, List.append_assoc,
      lookupL_append_none _ _ _ (lookupL_single_ne _ _ _ (by decide)),
      lookupL_append_none _ _ _ (lookupL_ite_optF_ne _ _ _ _ (by decide))]
    rw [if_neg (by simp [h])]
    rw [List.nil_append,
      lookupL_append_none _ _ _ (lookupL_arrSeg_ne _ _ _ (by decide))]
    exact lookupL_arrSeg_ne _ _ _ (by decide)

theorem tasksSearchSpec (args : JsObj) :
    getF (searchTasksBody args) "properties" = some (.arr (taskSearchProps.map .str))
  ∧ getF (searchTasksBody args) "sorts"
      = some (.arr [.obj [("propertyName", .str "hs_timestamp"),
                          ("direction", .str "ASCENDING")]])
  ∧ (tasksFilters args = [] → getF (searchTasksBody args) "filterGroups" = none)
  ∧ (tasksFilters args ≠ [] → getF (searchTasksBody args) "filterGroups"
      = some (.arr [.obj [("filters", .arr (tasksFilters args))]]))
  ∧ (∀ f, f ∈ tasksFilters args ↔
      ((truthyO (getA args "ownerId") = true
        ∧ f = filterObj "hubspot_owner_id" "EQ" (jsStringU (getA args "ownerId")))
     ∨ (truthyO (getA args "status") = true
        ∧ f = filterObj "hs_task_status" "EQ" (jsStringU (getA args "status")))
     ∨ (truthyO (getA args "dueBefore") = true
        ∧ f = filterObj "hs_timestamp" "LT" (jsStringU (getA args "dueBefore")))
     ∨ (truthyO (getA args "dueAfter") = true
        ∧ f = filterObj "hs_timestamp" "GT" (jsStringU (getA args "dueAfter"))))) := by
  refine ⟨rfl, rfl, ?_, ?_, ?_⟩
  · intro h
    unfold searchTasksBody
    rw [getF_obj, h]
    rfl
  · intro h
    unfold searchTasksBody
    rw [getF_obj, if_neg (by simp [List.isEmpty_iff, h])]
    rfl
  · intro f
    unfold tasksFilters
    simp only [List.mem_append, mem_ite_singleton, or_assoc]

theorem dealsSearchSpec (args : JsObj) :
    (∀ ps, getA args "properties" = some (.arr ps) →
      getF (searchDealsBody args) "properties" = some (.arr ps))
  ∧ (isArrO (getA args "properties") = false →
      getF (searchDealsBody args) "properties" = some (.arr (dealSearchProps.map .str)))
  ∧ getF (searchDealsBody args) "sorts"
      = some (.arr [.obj [("propertyName", .str "closedate"),
                          ("direction", .str "ASCENDING")]])
  ∧ (dealsFilters args = [] → getF (searchDealsBody args) "filterGroups" = none)
  ∧ (dealsFilters args ≠ [] → getF (searchDealsBody args) "filterGroups"
      = some (.arr [.obj [("filters", .arr (dealsFilters args))]]))
  ∧ (∀ f, f ∈ dealsFilters args ↔
      ((truthyO (getA args "ownerId") = true
        ∧ f = filterObj "hubspot_owner_id" "EQ" (jsStringU (getA args "ownerId")))
     ∨ (truthyO (getA args "dealstage") = true
        ∧ f = filterObj "dealstage" "EQ" (jsStringU (getA args "dealstage")))
     ∨ (truthyO (getA args "pipeline") = true
        ∧ f = filterObj "pipeline" "EQ" (jsStringU (getA args "pipeline")))
     ∨ (truthyO (getA args "closeAfter") = true
        ∧ f = filterObj "closedate" "GTE" (jsStringU (getA args "closeAfter")))
     ∨ (truthyO (getA args "closeBefore") = true
        ∧ f = filterObj "closedate" "LTE" (jsStringU (getA args "closeBefore")))
     ∨ (truthyO (getA args "minAmount") = true
        ∧ f = filterObj "amount" "GTE" (jsStringU (getA args "minAmount"))))) := by
  have hprop : getF (searchDealsBody args) "properties"
      = some (arrOrDefault (getA args "properties")
          (.arr (dealSearchProps.map .str))) := rfl
  refine ⟨?_, ?_, rfl, ?_, ?_, ?_⟩
  · intro ps hp
    rw [hprop, hp]
    rfl
  · intro h
    rw [hprop]
    unfold arrOrDefault
    cases ha : getA args "properties" with
    | none => rfl
    | some v =>
      cases v <;> first
      | rfl
      | (exfalso
         rw [ha] at h
         exact absurd h (by simp [isArrO]))
  · intro h
    unfold searchDealsBody
    rw [getF_obj, List.append_assoc,
      lookupL_append_none _ _ _ (by rfl),
      lookupL_append_none _ _ _ (lookupL_ite_optF_ne _ _ _ _ (by decide)), h]
    rfl
  · intro h
    unfold searchDealsBody
    rw [getF_obj, List.append_assoc,
      lookupL_append_none _ _ _ (by rfl),
      lookupL_append_none _ _ _ (lookupL_ite_optF_ne _ _ _ _ (by decide)),
      if_neg (by simp [List.isEmpty_iff, h])]
    rfl
  · intro f
    unfold dealsFilters
    simp only [List.mem_append, mem_ite_singleton, or_assoc]

/-- Claim C8: every composite create issues the primary create first
and each association only after everything before it resolved, as the
exact call traces show.  For create deal: contact association before
company association when both are supplied, exactly one association
call when only one is supplied (the other reported as null), and a
failure of either the contact or the company association fails the
whole call with the remote error, with no later call and no rollback
call in the trace.  The same create-then-associate discipline, with an
association failure failing the call, holds for the email log, the
note create and the task create. -/
theorem C8_composite_create :
    (∀ (env : Env) (tok nm cid coid did : String) (r j1 j2 : Json),
      env.token = some tok → ¬ cid = "" → ¬ coid = "" →
      did = jsStringU (getF r "id") →
      env.respond ⟨"/crm/v3/objects/deals", "POST",
        some (.obj [("properties", .obj [("dealname", .str nm)])])⟩ = .ok r →
      env.respond ⟨"/crm/v3/objects/deals/" ++ did ++ "/associations/contacts/"
          ++ cid ++ "/deal_to_contact", "PUT", none⟩ = .ok j1 →
      env.respond ⟨"/crm/v3/objects/deals/" ++ did ++ "/associations/companies/"
          ++ coid ++ "/deal_to_company", "PUT", none⟩ = .ok j2 →
      handleTool "hubspot_create_deal"
          [("dealname", .str nm), ("contactId", .str cid), ("companyId", .str coid)] env []
        = (.ok (.obj ([("success", .bool true)] ++ optF "dealId" (getF r "id")
            ++ optF "properties" (getF r "properties")
            ++ [("associations", .obj [("contactId", .str cid),
                                       ("companyId", .str coid)])])),
           [⟨"/crm/v3/objects/deals", "POST",
             some (.obj [("properties", .obj [("dealname", .str nm)])])⟩,
            ⟨"/crm/v3/objects/deals/" ++ did ++ "/associations/contacts/" ++ cid
              ++ "/deal_to_contact", "PUT", none⟩,
            ⟨"/crm/v3/objects/deals/" ++ did ++ "/associations/companies/" ++ coid
              ++ "/deal_to_company", "PUT", none⟩]))
  ∧ (∀ (env : Env) (tok nm cid coid did : String) (r : Json) (st : Nat) (b : String),
      env.token = some tok → ¬ cid = "" →
      did = jsStringU (getF r "id") →
      env.respond ⟨"/crm/v3/objects/deals", "POST",
        some (.obj [("properties", .obj [("dealname", .str nm)])])⟩ = .ok r →
      env.respond ⟨"/crm/v3/objects/deals/" ++ did ++ "/associations/contacts/"
          ++ cid ++ "/deal_to_contact", "PUT", none⟩ = .err st b →
      handleTool "hubspot_create_deal"
          [("dealname", .str nm), ("contactId", .str cid), ("companyId", .str coid)] env []
        = (.error ("HubSpot API " ++ toString st ++ ": " ++ b),
           [⟨"/crm/v3/objects/deals", "POST",
             some (.obj [("properties", .obj [("dealname", .str nm)])])⟩,
            ⟨"/crm/v3/objects/deals/" ++ did ++ "/associations/contacts/" ++ cid
              ++ "/deal_to_contact", "PUT", none⟩]))
  ∧ (∀ (env : Env) (tok nm cid coid did : String) (r j1 : Json) (st : Nat) (b : String),
      env.token = some tok → ¬ cid = "" → ¬ coid = "" →
      did = jsStringU (getF r "id") →
      env.respond ⟨"/crm/v3/objects/deals", "POST",
        some (.obj [("properties", .obj [("dealname", .str nm)])])⟩ = .ok r →
      env.respond ⟨"/crm/v3/objects/deals/" ++ did ++ "/associations/contacts/"
          ++ cid ++ "/deal_to_contact", "PUT", none⟩ = .ok j1 →
      env.respond ⟨"/crm/v3/objects/deals/" ++ did ++ "/associations/companies/"
          ++ coid ++ "/deal_to_company", "PUT", none⟩ = .err st b →
      handleTool "hubspot_create_deal"
          [("dealname", .str nm), ("contactId", .str cid), ("companyId", .str coid)] env []
        = (.error ("HubSpot API " ++ toString st ++ ": " ++ b),
           [⟨"/crm/v3/objects/deals", "POST",
             some (.obj [("properties", .obj [("dealname", .str nm)])])⟩,
            ⟨"/crm/v3/objects/deals/" ++ did ++ "/associations/contacts/" ++ cid
              ++ "/deal_to_contact", "PUT", none⟩,
            ⟨"/crm/v3/objects/deals/" ++ did ++ "/associations/companies/" ++ coid
              ++ "/deal_to_company", "PUT", none⟩]))
  ∧ (∀ (env : Env) (tok nm cid did : String) (r j1 : Json),
      env.token = some tok → ¬ cid = "" →
      did = jsStringU (getF r "id") →
      env.respond ⟨"/crm/v3/objects/deals", "POST",
        some (.obj [("properties", .obj [("dealname", .str nm)])])⟩ = .ok r →
      env.respond ⟨"/crm/v3/objects/deals/" ++ did ++ "/associations/contacts/"
          ++ cid ++ "/deal_to_contact", "PUT", none⟩ = .ok j1 →
      handleTool "hubspot_create_deal"
          [("dealname", .str nm), ("contactId", .str cid)] env []
        = (.ok (.obj ([("success", .bool true)] ++ optF "dealId" (getF r "id")
            ++ optF "properties" (getF r "properties")
            ++ [("associations", .obj [("contactId", .str cid),
                                       ("companyId", Json.null)])])),
           [⟨"/crm/v3/objects/deals", "POST",
             some (.obj [("properties", .obj [("dealname", .str nm)])])⟩,
            ⟨"/crm/v3/objects/deals/" ++ did ++ "/associations/contacts/" ++ cid
              ++ "/deal_to_contact", "PUT", none⟩]))
  ∧ (∀ (env : Env) (tok nm coid did : String) (r j2 : Json),
      env.token = some tok → ¬ coid = "" →
      did = jsStringU (getF r "id") →
      env.respond ⟨"/crm/v3/objects/deals", "POST",
        some (.obj [("properties", .obj [("dealname", .str nm)])])⟩ = .ok r →
      env.respond ⟨"/crm/v3/objects/deals/" ++ did ++ "/associations/companies/"
          ++ coid ++ "/deal_to_company", "PUT", none⟩ = .ok j2 →
      handleTool "hubspot_create_deal"
          [("dealname", .str nm), ("companyId", .str coid)] env []
        = (.ok (.obj ([("success", .bool true)] ++ optF "dealId" (getF r "id")
            ++ optF "properties" (getF r "properties")
            ++ [("associations", .obj [("contactId", Json.null),
                                       ("companyId", .str coid)])])),
           [⟨"/crm/v3/objects/deals", "POST",
             some (.obj [("properties", .obj [("dealname", .str nm)])])⟩,
            ⟨"/crm/v3/objects/deals/" ++ did ++ "/associations/companies/" ++ coid
              ++ "/deal_to_company", "PUT", none⟩]))
  ∧ (∀ (env : Env) (tok cid su bo ts eid : String) (r j1 : Json),
      env.token = some tok → ¬ ts = "" →
      eid = jsStringU (getF r "id") →
      env.respond ⟨"/crm/v3/objects/emails", "POST",
        some (.obj [("properties", .obj
          [("hs_email_subject", .str su), ("hs_email_text", .str bo),
           ("hs_email_direction", .str "EMAIL"), ("hs_timestamp", .str ts)])])⟩ = .ok r →
      env.respond ⟨"/crm/v3/objects/emails/" ++ eid ++ "/associations/contacts/"
          ++ cid ++ "/email_to_contact", "PUT", none⟩ = .ok j1 →
      handleTool "hubspot_log_email"
          [("contactId", .str cid), ("subject", .str su), ("body", .str bo),
           ("timestamp", .str ts)] env []
        = (.ok (.obj ([("success", .bool true)] ++ optF "emailId" (getF r "id")
            ++ [("contactId", .str cid)] ++ optF "properties" (getF r "properties"))),
           [⟨"/crm/v3/objects/emails", "POST",
             some (.obj [("properties", .obj
               [("hs_email_subject", .str su), ("hs_email_text", .str bo),
                ("hs_email_direction", .str "EMAIL"), ("hs_timestamp", .str ts)])])⟩,
            ⟨"/crm/v3/objects/emails/" ++ eid ++ "/associations/contacts/" ++ cid
              ++ "/email_to_contact", "PUT", none⟩]))
  ∧ (∀ (env : Env) (tok cid su bo ts eid : String) (r : Json) (st : Nat) (b : String),
      env.token = some tok → ¬ ts = "" →
      eid = jsStringU (getF r "id") →
      env.respond ⟨"/crm/v3/objects/emails", "POST",
        some (.obj [("properties", .obj
          [("hs_email_subject", .str su), ("hs_email_text", .str bo),
           ("hs_email_direction", .str "EMAIL"), ("hs_timestamp", .str ts)])])⟩ = .ok r →
      env.respond ⟨"/crm/v3/objects/emails/" ++ eid ++ "/associations/contacts/"
          ++ cid ++ "/email_to_contact", "PUT", none⟩ = .err st b →
      handleTool "hubspot_log_email"
          [("contactId", .str cid), ("subject", .str su), ("body", .str bo),
           ("timestamp", .str ts)] env []
        = (.error ("HubSpot API " ++ toString st ++ ": " ++ b),
           [⟨"/crm/v3/objects/emails", "POST",
             some (.obj [("properties", .obj
               [("hs_email_subject", .str su), ("hs_email_text", .str bo),
                ("hs_email_direction", .str "EMAIL"), ("hs_timestamp", .str ts)])])⟩,
            ⟨"/crm/v3/objects/emails/" ++ eid ++ "/associations/contacts/" ++ cid
              ++ "/email_to_contact", "PUT", none⟩]))
  ∧ (∀ (env : Env) (tok cid bo ts nid : String) (r j1 : Json),
      env.token = some tok → ¬ ts = "" →
      nid = jsStringU (getF r "id") →
      env.respond ⟨"/crm/v3/objects/notes", "POST",
        some (.obj [("properties", .obj
          [("hs_note_body", .str bo), ("hs_timestamp", .str ts)])])⟩ = .ok r →
      env.respond ⟨"/crm/v3/objects/notes/" ++ nid ++ "/associations/contacts/"
          ++ cid ++ "/note_to_contact", "PUT", none⟩ = .ok j1 →
      handleTool "hubspot_create_note"
          [("contactId", .str cid), ("body", .str bo), ("timestamp", .str ts)] env []
        = (.ok (.obj ([("success", .bool true)] ++ optF "noteId" (getF r "id")
            ++ [("contactId", .str cid)] ++ optF "properties" (getF r "properties"))),
           [⟨"/crm/v3/objects/notes", "POST",
             some (.obj [("properties", .obj
               [("hs_note_body", .str bo), ("hs_timestamp", .str ts)])])⟩,
            ⟨"/crm/v3/objects/notes/" ++ nid ++ "/associations/contacts/" ++ cid
              ++ "/note_to_contact", "PUT", none⟩]))
  ∧ (∀ (env : Env) (tok cid bo ts nid : String) (r : Json) (st : Nat) (b : String),
      env.token = some tok → ¬ ts = "" →
      nid = jsStringU (getF r "id") →
      env.respond ⟨"/crm/v3/objects/notes", "POST",
        some (.obj [("properties", .obj
          [("hs_note_body", .str bo), ("hs_timestamp", .str ts)])])⟩ = .ok r →
      env.respond ⟨"/crm/v3/objects/notes/" ++ nid ++ "/associations/contacts/"
          ++ cid ++ "/note_to_contact", "PUT", none⟩ = .err st b →
      handleTool "hubspot_create_note"
          [("contactId", .str cid), ("body", .str bo), ("timestamp", .str ts)] env []
        = (.error ("HubSpot API " ++ toString st ++ ": " ++ b),
           [⟨"/crm/v3/objects/notes", "POST",
             some (.obj [("properties", .obj
               [("hs_note_body", .str bo), ("hs_timestamp", .str ts)])])⟩,
            ⟨"/crm/v3/objects/notes/" ++ nid ++ "/associations/contacts/" ++ cid
              ++ "/note_to_contact", "PUT", none⟩]))
  ∧ (∀ (env : Env) (tok cid su dd tid : String) (r j1 : Json),
      env.token = some tok → ¬ dd = "" →
      tid = jsStringU (getF r "id") →
      env.respond ⟨"/crm/v3/objects/tasks", "POST",
        some (.obj [("properties", .obj
          [("hs_task_subject", .str su), ("hs_timestamp", .str dd),
           ("hs_task_status", .str "NOT_STARTED")])])⟩ = .ok r →
      env.respond ⟨"/crm/v3/objects/tasks/" ++ tid ++ "/associations/contacts/"
          ++ cid ++ "/task_to_contact", "PUT", none⟩ = .ok j1 →
      handleTool "hubspot_create_task"
          [("contactId", .str cid), ("subject", .str su), ("dueDate", .str dd)] env []
        = (.ok (.obj ([("success", .bool true)] ++ optF "taskId" (getF r "id")
            ++ [("contactId", .str cid)] ++ optF "properties" (getF r "properties"))),
           [⟨"/crm/v3/objects/tasks", "POST",
             some (.obj [("properties", .obj
               [("hs_task_subject", .str su), ("hs_timestamp", .str dd),
                ("hs_task_status", .str "NOT_STARTED")])])⟩,
            ⟨"/crm/v3/objects/tasks/" ++ tid ++ "/associations/contacts/" ++ cid
              ++ "/task_to_contact", "PUT", none⟩]))
  ∧ (∀ (env : Env) (tok cid su dd tid : String) (r : Json) (st : Nat) (b : String),
      env.token = some tok → ¬ dd = "" →
      tid = jsStringU (getF r "id") →
      env.respond ⟨"/crm/v3/objects/tasks", "POST",
        some (.obj [("properties", .obj
          [("hs_task_subject", .str su), ("hs_timestamp", .str dd),
           ("hs_task_status", .str "NOT_STARTED")])])⟩ = .ok r →
      env.respond ⟨"/crm/v3/objects/tasks/" ++ tid ++ "/associations/contacts/"
          ++ cid ++ "/task_to_contact", "PUT", none⟩ = .err st b →
      handleTool "hubspot_create_task"
          [("contactId", .str cid), ("subject", .str su), ("dueDate", .str dd)] env []
        = (.error ("HubSpot API " ++ toString st ++ ": " ++ b),
           [⟨"/crm/v3/objects/tasks", "POST",
             some (.obj [("properties", .obj
               [("hs_task_subject", .str su), ("hs_timestamp", .str dd),
                ("hs_task_status", .str "NOT_STARTED")])])⟩,
            ⟨"/crm/v3/objects/tasks/" ++ tid ++ "/associations/contacts/" ++ cid
              ++ "/task_to_contact", "PUT", none⟩])) :=
  ⟨fun env tok nm cid coid did r j1 j2 ht hc hco hd hcr ha1 ha2 =>
     createDeal_assoc_ok env tok nm cid coid did r ht hc hco hd hcr j1 j2 ha1 ha2,
   fun env tok nm cid coid did r st b ht hc hd hcr ha1 =>
     createDeal_assoc_err env tok nm cid coid did r st b ht hc hd hcr ha1,
   fun env tok nm cid coid did r j1 st b ht hc hco hd hcr ha1 ha2 =>
     createDeal_company_assoc_err env tok nm cid coid did r j1 st b ht hc hco hd hcr ha1 ha2,
   fun env tok nm cid did r j1 ht hc hd hcr ha1 =>
     createDeal_contact_only_ok env tok nm cid did r j1 ht hc hd hcr ha1,
   fun env tok nm coid did r j2 ht hco hd hcr ha2 =>
     createDeal_company_only_ok env tok nm coid did r j2 ht hco hd hcr ha2,
   fun env tok cid su bo ts eid r j1 ht hts heid hcr ha1 =>
     logEmail_assoc_ok env tok cid su bo ts eid r j1 ht hts heid hcr ha1,
   fun env tok cid su bo ts eid r st b ht hts heid hcr ha1 =>
     logEmail_assoc_err env tok cid su bo ts eid r st b ht hts heid hcr ha1,
   fun env tok cid bo ts nid r j1 ht hts hnid hcr ha1 =>
     createNote_assoc_ok env tok cid bo ts nid r j1 ht hts hnid hcr ha1,
   fun env tok cid bo ts nid r st b ht hts hnid hcr ha1 =>
     createNote_assoc_err env tok cid bo ts nid r st b ht hts hnid hcr ha1,
   fun env tok cid su dd tid r j1 ht hdd htid hcr ha1 =>
     createTask_assoc_ok env tok cid su dd tid r j1 ht hdd htid hcr ha1,
   fun env tok cid su dd tid r st b ht hdd htid hcr ha1 =>
     createTask_assoc_err env tok cid su dd tid r st b ht hdd htid hcr ha1⟩

/-- Claim C10 (amended): contact and company searches pass `properties`
and `sorts` through verbatim when supplied as arrays and omit them
otherwise, and pass `filterGroups` through only when supplied; the task
search always sends a fixed properties projection and a fixed sort; the
deal search sends caller properties when supplied and a fixed fallback
otherwise, plus a fixed sort; and for tasks and deals a single filter
group is synthesized exactly when at least one convenience filter was
supplied, containing precisely the supplied convenience filters. -/
theorem C10_search_amended (args : JsObj) :
    ((∀ ps, getA args "properties" = some (.arr ps) →
        getF (searchContactsBody args) "properties" = some (.arr ps))
    ∧ (isArrO (getA args "properties") = false →
        getF (searchContactsBody args) "properties" = none)
    ∧ (∀ ss, getA args "sorts" = some (.arr ss) →
        getF (searchContactsBody args) "sorts" = some (.arr ss))
    ∧ (isArrO (getA args "sorts") = false →
        getF (searchContactsBody args) "sorts" = none)
    ∧ (∀ fg, getA args "filterGroups" = some fg → truthy fg = true →
        getF (searchContactsBody args) "filterGroups" = some fg)
    ∧ (truthyO (getA args "filterGroups") = false →
        getF (searchContactsBody args) "filterGroups" = none)
    ∧ searchCompaniesBody args = searchContactsBody args)
  ∧ (getF (searchTasksBody args) "properties" = some (.arr (taskSearchProps.map .str))
    ∧ getF (searchTasksBody args) "sorts"
        = some (.arr [.obj [("propertyName", .str "hs_timestamp"),
                            ("direction", .str "ASCENDING")]])
    ∧ (tasksFilters args = [] → getF (searchTasksBody args) "filterGroups" = none)
    ∧ (tasksFilters args ≠ [] → getF (searchTasksBody args) "filterGroups"
        = some (.arr [.obj [("filters", .arr (tasksFilters args))]]))
    ∧ (∀ f, f ∈ tasksFilters args ↔
        ((truthyO (getA args "ownerId") = true
          ∧ f = filterObj "hubspot_owner_id" "EQ" (jsStringU (getA args "ownerId")))
       ∨ (truthyO (getA args "status") = true
          ∧ f = filterObj "hs_task_status" "EQ" (jsStringU (getA args "status")))
       ∨ (truthyO (getA args "dueBefore") = true
          ∧ f = filterObj "hs_timestamp" "LT" (jsStringU (getA args "dueBefore")))
       ∨ (truthyO (getA args "dueAfter") = true
          ∧ f = filterObj "hs_timestamp" "GT" (jsStringU (getA args "dueAfter"))))))
  ∧ ((∀ ps, getA args "properties" = some (.arr ps) →
        getF (searchDealsBody args) "properties" = some (.arr ps))
    ∧ (isArrO (getA args "properties") = false →
        getF (searchDealsBody args) "properties"
          = some (.arr (dealSearchProps.map .str)))
    ∧ getF (searchDealsBody args) "sorts"
        = some (.arr [.obj [("propertyName", .str "closedate"),
                            ("direction", .str "ASCENDING")]])
    ∧ (dealsFilters args = [] → getF (searchDealsBody args) "filterGroups" = none)
    ∧ (dealsFilters args ≠ [] → getF (searchDealsBody args) "filterGroups"
        = some (.arr [.obj [("filters", .arr (dealsFilters args))]]))
    ∧ (∀ f, f ∈ dealsFilters args ↔
        ((truthyO (getA args "ownerId") = true
          ∧ f = filterObj "hubspot_owner_id" "EQ" (jsStringU (getA args "ownerId")))
       ∨ (truthyO (getA args "dealstage") = true
          ∧ f = filterObj "dealstage" "EQ" (jsStringU (getA args "dealstage")))
       ∨ (truthyO (getA args "pipeline") = true
          ∧ f = filterObj "pipeline" "EQ" (jsStringU (getA args "pipeline")))
       ∨ (truthyO (getA args "closeAfter") = true
          ∧ f = filterObj "closedate" "GTE" (jsStringU (getA args "closeAfter")))
       ∨ (truthyO (getA args "closeBefore") = true
          ∧ f = filterObj "closedate" "LTE" (jsStringU (getA args "closeBefore")))
       ∨ (truthyO (getA args "minAmount") = true
          ∧ f = filterObj "amount" "GTE" (jsStringU (getA args "minAmount")))))) :=
  ⟨contactsSearchSpec args, tasksSearchSpec args, dealsSearchSpec args⟩

/-- Claim C2 counterexample: with exclusion term `""` and a present but
empty `company` value, the claim demands exclusion (the case-folded
company contains the empty term as a substring, as the second conjunct
records), but `filterResults` keeps the object and reports zero
exclusions, because the code guards the match behind JS truthiness of
the coerced value. -/
theorem C2_filter_counterexample :
    filterResults [Json.obj [("properties", .obj [("company", .str "")])]] [""] []
      = ([Json.obj [("properties", .obj [("company", .str "")])]], 0)
  ∧ strContains (toLower "") (toLower "") = true := ⟨rfl, rfl⟩

/-- Claim C4 counterexample: a caller-supplied limit of −5 is sent to
the remote system as −5 — below the documented minimum of 1 and not
clamped up — as both the limit expression and the actual query string
of the issued call show. -/
theorem C4_limit_counterexample :
    effLimit (some (.num (-5))) = -5
  ∧ effLimit (some (.num (-5))) < 1
  ∧ (handleTool "hubspot_list_contacts" [("limit", .num (-5))] envSample []).2
      = [⟨"/crm/v3/objects/contacts?limit=-5", "GET", none⟩] := ⟨rfl, by decide, rfl⟩

/-- Claim C5 counterexample: deleting contact 7 issues exactly one
DELETE and returns `{success: true}` only — the result carries no
`deleted` key, contradicting the claimed `{success:true, deleted:X}`
shape for contact deletion. -/
theorem C5_delete_counterexample :
    handleTool "hubspot_delete_contact" [("id", .str "7")] envSample []
      = (.ok (.obj [("success", .bool true)]),
         [⟨"/crm/v3/objects/contacts/7", "DELETE", none⟩])
  ∧ lookupL [("success", Json.bool true)] "deleted" = none := ⟨rfl, rfl⟩

/-- Claim C6 counterexample: a source object carrying
`createdAt = ""` (present but falsy) loses the field in compacted
output even with `includeMetadata = true`, because the code guards
`createdAt`/`updatedAt`/`url` by JS truthiness rather than presence. -/
theorem C6_metadata_counterexample :
    getF (.obj [("id", .str "1"), ("createdAt", .str "")]) "createdAt" = some (.str "")
  ∧ lookupL (compactResult (.obj [("id", .str "1"), ("createdAt", .str "")])
      (.fin 500) true) "createdAt" = none := ⟨rfl, rfl⟩

/-- Claim C10 counterexample: a task search with no caller-supplied
`properties` or `sorts` still sends a body carrying the hardcoded
properties projection and the fixed due-date sort — the fields are not
omitted when absent, contradicting the claim for the task search. -/
theorem C10_search_counterexample :
    getA ([] : JsObj) "properties" = none
  ∧ getA ([] : JsObj) "sorts" = none
  ∧ getF (searchTasksBody []) "properties" = some (.arr (taskSearchProps.map .str))
  ∧ getF (searchTasksBody []) "sorts"
      = some (.arr [.obj [("propertyName", .str "hs_timestamp"),
                          ("direction", .str "ASCENDING")]])
  ∧ (handleTool "hubspot_search_tasks" [] envSample []).2
      = [⟨"/crm/v3/objects/tasks/search", "POST", some (searchTasksBody [])⟩] :=
  ⟨rfl, rfl, rfl, rfl, rfl⟩

theorem C1_truncation_witness :
    truncateValue (.str "ab") (.fin ((5 : Nat) : Int)) = .str "ab"
  ∧ (truncateValue (.str "abcdef") (.fin ((3 : Nat) : Int))
        = .str (strTake "abcdef" 3 ++ truncMarker)
      ∧ (strTake "abcdef" 3).length = 3
      ∧ (strTake "abcdef" 3).data = "abcdef".data.take 3)
  ∧ truncateValue (.bool true) (.fin 7) = .bool true
  ∧ truncateProperties [("a", .str "xyz")] .inf = [("a", .str "xyz")]
  ∧ lookupL (compactResult (.obj [("id", .str "1"),
        ("properties", .obj [("a", .str "xyz")])]) (.fin 1) false) "properties"
      = some (.obj (truncateProperties [("a", .str "xyz")] (.fin 1))) :=
  ⟨C1_truncation.1 "ab" 5 (by decide),
   C1_truncation.2.1 "abcdef" 3 (by decide),
   C1_truncation.2.2.1 (.bool true) (.fin 7) rfl,
   C1_truncation.2.2.2.2.1 [("a", .str "xyz")],
   C1_truncation.2.2.2.2.2 _ (.fin 1) false [("a", .str "xyz")] rfl⟩

theorem C2_filter_amended_witness :
    (filterResults [Json.obj [("properties", .obj [("company", .str "Acme Corp")])],
        Json.obj [("properties", .obj [("company", .str "Beta")])]] ["acme"] []).1
      = [Json.obj [("properties", .obj [("company", .str "Acme Corp")])],
         Json.obj [("properties", .obj [("company", .str "Beta")])]].filter
          (fun o => !specMatched o ["acme"] [])
  ∧ [Json.obj [("properties", .obj [("company", .str "Acme Corp")])],
     Json.obj [("properties", .obj [("company", .str "Beta")])]].filter
       (fun o => !specMatched o ["acme"] [])
      = [Json.obj [("properties", .obj [("company", .str "Beta")])]]
  ∧ filterResults [Json.obj [("properties", .obj [("company", .str "Beta")])]] [] []
      = ([Json.obj [("properties", .obj [("company", .str "Beta")])]], 0) :=
  ⟨(C2_filter_amended _ ["acme"] []).1, rfl,
   (C2_filter_amended [Json.obj [("properties", .obj [("company", .str "Beta")])]]
      [] []).2.2.2 rfl rfl⟩

theorem C3_unknown_tool_witness :
    handler ⟨"POST", some (.str "tools/call"),
        some (.obj [("name", .str "not_a_tool"), ("arguments", .obj [])]),
        some (.num 1)⟩ envSample
      = ⟨200, rpcErrorBody (-32603) ("Unknown tool: " ++ "not_a_tool") (some (.num 1))⟩
  ∧ strContains ("Unknown tool: " ++ "not_a_tool") "not_a_tool" = true :=
  C3_unknown_tool "not_a_tool" (.obj []) envSample (some (.num 1)) (by decide)

theorem C4_limit_amended_witness :
    (effLimit (some (.num 250)) = min 250 100
      ∧ effLimitOwners (some (.num 250)) = min 250 500)
  ∧ (effLimit (some (.num (-5))) = -5 ∧ effLimitOwners (some (.num (-5))) = -5) :=
  ⟨(C4_limit_amended (some (.num 250))).2.2.1 250 rfl (by decide),
   (C4_limit_amended (some (.num (-5)))).2.2.2.2 (-5) rfl (by decide)⟩

theorem C5_delete_amended_witness :
    handleTool "hubspot_delete_contact" [("id", .str "7")] envSample []
      = (.ok (.obj [("success", .bool true)]),
         [⟨"/crm/v3/objects/contacts/7", "DELETE", none⟩])
  ∧ handleTool "hubspot_delete_company" [("id", .str "7")] envSample []
      = (.ok (.obj [("success", .bool true)]),
         [⟨"/crm/v3/objects/companies/7", "DELETE", none⟩])
  ∧ handleTool "hubspot_delete_deal" [("id", .str "7")] envSample []
      = (.ok (.obj [("success", .bool true), ("deleted", .str "7")]),
         [⟨"/crm/v3/objects/deals/7", "DELETE", none⟩])
  ∧ lookupL [("success", Json.bool true)] "deleted" = none :=
  C5_delete_amended envSample "token" "7" (.obj []) (.obj []) (.obj []) rfl rfl rfl rfl

theorem C6_metadata_amended_witness :
    lookupL (compactResult (.obj [("createdAt", .str "2024-01-01"),
        ("archived", .bool false)]) (.fin 500) true) "createdAt"
      = some (.str "2024-01-01")
  ∧ lookupL (compactResult (.obj [("createdAt", .str "2024-01-01"),
        ("archived", .bool false)]) (.fin 500) true) "archived"
      = some (.bool false) :=
  ⟨((C6_metadata_amended (.obj [("createdAt", .str "2024-01-01"),
       ("archived", .bool false)]) (.fin 500) true).1 (.str "2024-01-01")).mpr
     ⟨rfl, rfl, rfl⟩,
   ((C6_metadata_amended (.obj [("createdAt", .str "2024-01-01"),
       ("archived", .bool false)]) (.fin 500) true).2.2.1 (.bool false)).mpr
     ⟨rfl, rfl⟩⟩

theorem C7_engagement_isolation_witness :
    handleTool "hubspot_get_engagements"
        [("contactId", .str "42"), ("types", .arr [.str "calls", .str "emails"])]
        envEngagements []
      = (.ok (.obj [("contactId", .str "42"),
          ("engagements", .obj [("calls", .arr []),
            ("emails", .arr ([Json.obj [("id", .str "900"),
                ("properties", .obj [("hs_email_subject", .str "hello")])]].map (fun e =>
              Json.obj (optF "id" (getF e "id")
                ++ optF "properties" (getF e "properties")))))]),
          ("_meta", .obj [("typesRequested", .arr [.str "calls", .str "emails"])])]),
        [assocCall "42" "calls", assocCall "42" "emails",
         ⟨"/crm/v3/objects/emails/batch/read", "POST",
          some (batchReadBody "emails" [some (.str "900")])⟩])
  ∧ ([Json.obj [("id", .str "900"),
        ("properties", .obj [("hs_email_subject", .str "hello")])]].map (fun e =>
      Json.obj (optF "id" (getF e "id") ++ optF "properties" (getF e "properties")))) ≠ []
  ∧ fetchEngagementType "42" 20 "calls" envEngagements []
      = (.ok [], [assocCall "42" "calls"])
  ∧ fetchEngagementType "5" 20 "notes" envBatchFails []
      = (.ok [], [assocCall "5" "notes",
          ⟨"/crm/v3/objects/" ++ "notes" ++ "/batch/read", "POST",
           some (batchReadBody "notes"
             ((jsSlice0 20 [Json.obj [("toObjectId", .str "7")]]).map
               (fun a => getF a "toObjectId")))⟩]) :=
  ⟨(C7_engagement_isolation envEngagements "token" "42" 500 "boom" (.str "900")
      (Json.obj [("id", .str "900"),
        ("properties", .obj [("hs_email_subject", .str "hello")])]) []
      rfl rfl rfl rfl).1,
   (C7_engagement_isolation envEngagements "token" "42" 500 "boom" (.str "900")
      (Json.obj [("id", .str "900"),
        ("properties", .obj [("hs_email_subject", .str "hello")])]) []
      rfl rfl rfl rfl).2.1,
   (C7_engagement_isolation envEngagements "token" "42" 500 "boom" (.str "900")
      (Json.obj [("id", .str "900"),
        ("properties", .obj [("hs_email_subject", .str "hello")])]) []
      rfl rfl rfl rfl).2.2.1 envEngagements "token" "42" "calls" 20 500 "boom" []
     rfl rfl,
   (C7_engagement_isolation envEngagements "token" "42" 500 "boom" (.str "900")
      (Json.obj [("id", .str "900"),
        ("properties", .obj [("hs_email_subject", .str "hello")])]) []
      rfl rfl rfl rfl).2.2.2 envBatchFails "token" "5" "notes" 20
     (.obj [("results", .arr [.obj [("toObjectId", .str "7")]])])
     (.obj [("toObjectId", .str "7")]) [] 500 "batch down" []
     rfl rfl rfl rfl⟩

theorem C9_update_validation_witness :
    handleTool "hubspot_update_task" [("taskId", .str "1"), ("id", .str "2")] envSample []
      = (.error "At least one property to update must be provided", [])
  ∧ handleTool "hubspot_update_deal" [("taskId", .str "1"), ("id", .str "2")] envSample []
      = (.error "At least one property to update must be provided", [])
  ∧ strContains "At least one property to update must be provided"
      "At least one property" = true :=
  C9_update_validation [("taskId", .str "1"), ("id", .str "2")] envSample
    rfl rfl rfl rfl rfl rfl rfl rfl rfl rfl

theorem C8_composite_create_witness :
    handleTool "hubspot_create_deal"
        [("dealname", .str "Q1 Renewal"), ("contactId", .str "10"),
         ("companyId", .str "20")] envCreateDeal []
      = (.ok (.obj ([("success", .bool true)]
          ++ optF "dealId" (getF (.obj [("id", .str "501")]) "id")
          ++ optF "properties" (getF (.obj [("id", .str "501")]) "properties")
          ++ [("associations", .obj [("contactId", .str "10"),
                                     ("companyId", .str "20")])])),
         [⟨"/crm/v3/objects/deals", "POST",
           some (.obj [("properties", .obj [("dealname", .str "Q1 Renewal")])])⟩,
          ⟨"/crm/v3/objects/deals/" ++ "501" ++ "/associations/contacts/" ++ "10"
            ++ "/deal_to_contact", "PUT", none⟩,
          ⟨"/crm/v3/objects/deals/" ++ "501" ++ "/associations/companies/" ++ "20"
            ++ "/deal_to_company", "PUT", none⟩])
  ∧ handleTool "hubspot_create_deal"
        [("dealname", .str "Q1 Renewal"), ("contactId", .str "10"),
         ("companyId", .str "20")] envAssocFails []
      = (.error ("HubSpot API " ++ toString 502 ++ ": " ++ "assoc down"),
         [⟨"/crm/v3/objects/deals", "POST",
           some (.obj [("properties", .obj [("dealname", .str "Q1 Renewal")])])⟩,
          ⟨"/crm/v3/objects/deals/" ++ "501" ++ "/associations/contacts/" ++ "10"
            ++ "/deal_to_contact", "PUT", none⟩])
  ∧ handleTool "hubspot_create_note"
        [("contactId", .str "10"), ("body", .str "note body"),
         ("timestamp", .str "2024-02-01")] envAssocFails []
      = (.error ("HubSpot API " ++ toString 502 ++ ": " ++ "assoc down"),
         [⟨"/crm/v3/objects/notes", "POST",
           some (.obj [("properties", .obj
             [("hs_note_body", .str "note body"),
              ("hs_timestamp", .str "2024-02-01")])])⟩,
          ⟨"/crm/v3/objects/notes/" ++ "700" ++ "/associations/contacts/" ++ "10"
            ++ "/note_to_contact", "PUT", none⟩])
  ∧ handleTool "hubspot_create_task"
        [("contactId", .str "10"), ("subject", .str "Follow up"),
         ("dueDate", .str "2024-02-01")] envCreateDeal []
      = (.ok (.obj ([("success", .bool true)] ++ optF "taskId" (getF (Json.obj []) "id")
          ++ [("contactId", .str "10")]
          ++ optF "properties" (getF (Json.obj []) "properties"))),
         [⟨"/crm/v3/objects/tasks", "POST",
           some (.obj [("properties", .obj
             [("hs_task_subject", .str "Follow up"),
              ("hs_timestamp", .str "2024-02-01"),
              ("hs_task_status", .str "NOT_STARTED")])])⟩,
          ⟨"/crm/v3/objects/tasks/" ++ "undefined" ++ "/associations/contacts/" ++ "10"
            ++ "/task_to_contact", "PUT", none⟩]) :=
  ⟨C8_composite_create.1 envCreateDeal "token" "Q1 Renewal" "10" "20" "501"
     (.obj [("id", .str "501")]) (.obj []) (.obj [])
     rfl (by decide) (by decide) rfl rfl rfl rfl,
   C8_composite_create.2.1 envAssocFails "token" "Q1 Renewal" "10" "20" "501"
     (.obj [("id", .str "501")]) 502 "assoc down"
     rfl (by decide) rfl rfl rfl,
   C8_composite_create.2.2.2.2.2.2.2.2.1 envAssocFails "token" "10" "note body"
     "2024-02-01" "700" (.obj [("id", .str "700")]) 502 "assoc down"
     rfl (by decide) rfl rfl rfl,
   C8_composite_create.2.2.2.2.2.2.2.2.2.1 envCreateDeal "token" "10" "Follow up"
     "2024-02-01" "undefined" (.obj []) (.obj [])
     rfl (by decide) rfl rfl rfl⟩

theorem C10_search_amended_witness :
    getF (searchContactsBody [("properties", .arr [.str "email"]),
        ("ownerId", .str "5")]) "properties" = some (.arr [.str "email"])
  ∧ getF (searchTasksBody [("properties", .arr [.str "email"]), ("ownerId", .str "5")])
      "properties" = some (.arr (taskSearchProps.map .str))
  ∧ (filterObj "hubspot_owner_id" "EQ" "5"
      ∈ tasksFilters [("properties", .arr [.str "email"]), ("ownerId", .str "5")])
  ∧ getF (searchDealsBody [("ownerId", .str "5")]) "properties"
      = some (.arr (dealSearchProps.map .str)) :=
  ⟨(C10_search_amended [("properties", .arr [.str "email"]), ("ownerId", .str "5")]).1.1
     [.str "email"] rfl,
   (C10_search_amended [("properties", .arr [.str "email"]), ("ownerId", .str "5")]).2.1.1,
   ((C10_search_amended [("properties", .arr [.str "email"]),
       ("ownerId", .str "5")]).2.1.2.2.2.2 (filterObj "hubspot_owner_id" "EQ" "5")).mpr
     (Or.inl ⟨rfl, rfl⟩),
   (C10_search_amended [("ownerId", .str "5")]).2.2.2.1 rfl⟩
